import Mathlib

/-!
Shallow embedding of the FormAI exercise-analysis core
(src/utils/poseUtils.ts, src/utils/squatAnalysis.ts,
src/utils/squatBiomechanics.ts, src/utils/advancedFormAnalysis.ts).

JavaScript numbers are modelled as real numbers; `Math.atan2` is modelled by
the standard piecewise real arctangent-of-two-arguments; `Date.now()` is an
explicit `now : ℝ` parameter threaded through `detectPhase`; the mutable
`SquatDetector` object is a `DetectorState` record passed and returned
explicitly.  Landmarks that may be `undefined` at runtime are `Option
Landmark`; field accesses that the source performs only behind its validity
gate are modelled with a total getter that reads an absent landmark as the
zero landmark.
-/

open Real

open scoped Classical

namespace FormAI

/-- `Landmark` (src/types.ts): x, y, z coordinates and an optional
visibility confidence. -/
structure Landmark where
  x : ℝ
  y : ℝ
  z : ℝ
  visibility : Option ℝ

/-- The eight joints the analysis core of the program reads from a pose
(`PoseLandmarks`, src/types.ts); each may be absent at runtime. -/
structure PoseLandmarks where
  LEFT_SHOULDER : Option Landmark
  RIGHT_SHOULDER : Option Landmark
  LEFT_HIP : Option Landmark
  RIGHT_HIP : Option Landmark
  LEFT_KNEE : Option Landmark
  RIGHT_KNEE : Option Landmark
  LEFT_ANKLE : Option Landmark
  RIGHT_ANKLE : Option Landmark

/-- Total read of a possibly-absent landmark: absent landmarks read as the
zero landmark.  The source dereferences landmarks only behind its validity
gate (or behind explicit `!a` checks), so this default is never observable
there. -/
def getLm (l : Option Landmark) : Landmark :=
  l.getD ⟨0, 0, 0, none⟩

/-- `Math.atan2 y x` on the reals: the angle of the point `(x, y)`,
in `(-π, π]`. -/
noncomputable def atan2 (y x : ℝ) : ℝ :=
  if 0 < x then arctan (y / x)
  else if x < 0 then
    (if 0 ≤ y then arctan (y / x) + π else arctan (y / x) - π)
  else if 0 < y then π / 2
  else if y < 0 then -(π / 2)
  else 0

/-- `calculateAngle` (src/utils/poseUtils.ts lines 3-14): arctangent-difference
angle at vertex `b` in degrees, absolute value taken, folded by `360 - angle`
when above 180; returns 0 when any input landmark is absent. -/
noncomputable def calculateAngle (a b c : Option Landmark) : ℝ :=
  match a, b, c with
  | some a, some b, some c =>
    let radians := atan2 (c.y - b.y) (c.x - b.x) - atan2 (a.y - b.y) (a.x - b.x)
    let angle := |radians * 180 / π|
    if angle > 180 then 360 - angle else angle
  | _, _, _ => 0

/-- `calculateKneeAngle` (src/utils/poseUtils.ts). -/
noncomputable def calculateKneeAngle (hip knee ankle : Option Landmark) : ℝ :=
  calculateAngle hip knee ankle

/-- `calculateHipAngle` (src/utils/poseUtils.ts). -/
noncomputable def calculateHipAngle (shoulder hip knee : Option Landmark) : ℝ :=
  calculateAngle shoulder hip knee

/-- `calculateTorsoAngle` (src/utils/poseUtils.ts lines 24-30): deviation of
the shoulder-hip segment from vertical, in degrees.  The source takes plain
landmarks; call sites are behind the validity gate, so absent landmarks are
read through `getLm`. -/
noncomputable def calculateTorsoAngle (shoulder hip : Option Landmark) : ℝ :=
  let s := getLm shoulder
  let h := getLm hip
  let deltaY := h.y - s.y
  let deltaX := h.x - s.x
  let angleDeg := atan2 deltaY deltaX * 180 / π
  abs (90 - |angleDeg|)

/-- `checkKneeCaveIn` (src/utils/poseUtils.ts lines 32-36): knee span
materially narrower than ankle span. -/
noncomputable def checkKneeCaveIn
    (leftKnee rightKnee leftAnkle rightAnkle : Option Landmark) : Bool :=
  let kneeWidth := |(getLm leftKnee).x - (getLm rightKnee).x|
  let ankleWidth := |(getLm leftAnkle).x - (getLm rightAnkle).x|
  if kneeWidth < ankleWidth * 0.9 then true else false

/-- `checkKneesOverToes` (src/utils/poseUtils.ts lines 38-40). -/
noncomputable def checkKneesOverToes (knee ankle : Option Landmark) : Bool :=
  if (getLm knee).x > (getLm ankle).x + 0.05 then true else false

/-- `SquatPhase` (src/utils/squatAnalysis.ts line 4). -/
inductive SquatPhase where
  | standing
  | descending
  | bottom
  | ascending
  deriving DecidableEq, Repr

/-- The forward successor in the fixed squat cycle
Standing → Descending → Bottom → Ascending → Standing. -/
def cycleSucc : SquatPhase → SquatPhase
  | .standing => .descending
  | .descending => .bottom
  | .bottom => .ascending
  | .ascending => .standing

/-- `FormAnalysis` (src/utils/squatAnalysis.ts lines 6-15). -/
structure FormAnalysis where
  kneeAngle : ℝ
  hipAngle : ℝ
  torsoAngle : ℝ
  depth : ℝ
  kneeAlignment : Bool
  kneesOverToes : Bool
  overallScore : ℝ
  feedback : List String

/-- Constants of src/utils/squatAnalysis.ts lines 25-29. -/
def STANDING_KNEE_THRESHOLD : ℝ := 170

/-- Bottom knee-angle threshold (src/utils/squatAnalysis.ts line 26). -/
def BOTTOM_KNEE_THRESHOLD : ℝ := 90

/-- Minimum hip-height excursion for a credited rep
(src/utils/squatAnalysis.ts line 27). -/
def MIN_DESCENT_DISTANCE : ℝ := 0.15

/-- Debounce frame count (src/utils/squatAnalysis.ts line 28). -/
def DEBOUNCE_FRAMES : ℕ := 8

/-- Visibility floor of the validity gate (src/utils/squatAnalysis.ts
line 29). -/
def MIN_VISIBILITY : ℝ := 0.7

/-- The private mutable fields of `SquatDetector`
(src/utils/squatAnalysis.ts lines 32-39). -/
structure DetectorState where
  phase : SquatPhase
  repCount : ℕ
  lowestHipHeight : ℝ
  highestHipHeight : ℝ
  phaseFrameCount : ℕ
  startTime : ℝ
  formScores : List ℝ
  repStartTime : ℝ

/-- `SquatDetector.reset` (src/utils/squatAnalysis.ts lines 41-50); `now`
is the value of `Date.now()` at the call. -/
def resetState (now : ℝ) : DetectorState :=
  { phase := .standing
    repCount := 0
    lowestHipHeight := 1
    highestHipHeight := 0
    phaseFrameCount := 0
    startTime := now
    formScores := []
    repStartTime := 0 }

/-- One required landmark passes the gate: present with visibility
(defaulted to 0) at least `MIN_VISIBILITY`. -/
def lmValid (l : Option Landmark) : Prop :=
  match l with
  | none => False
  | some lm => MIN_VISIBILITY ≤ lm.visibility.getD 0

/-- `SquatDetector.isPoseValid` (src/utils/squatAnalysis.ts lines 52-63). -/
def isPoseValid (pose : PoseLandmarks) : Prop :=
  lmValid pose.LEFT_HIP ∧ lmValid pose.RIGHT_HIP ∧
  lmValid pose.LEFT_KNEE ∧ lmValid pose.RIGHT_KNEE ∧
  lmValid pose.LEFT_ANKLE ∧ lmValid pose.RIGHT_ANKLE ∧
  lmValid pose.LEFT_SHOULDER ∧ lmValid pose.RIGHT_SHOULDER

/-- `SquatDetector.analyzeForm` (src/utils/squatAnalysis.ts lines 65-145),
with the detector's current state passed explicitly for `this.phase`. -/
noncomputable def analyzeForm (s : DetectorState) (pose : PoseLandmarks) :
    FormAnalysis :=
  if isPoseValid pose then
    let kneeAngle := (calculateKneeAngle pose.LEFT_HIP pose.LEFT_KNEE pose.LEFT_ANKLE +
      calculateKneeAngle pose.RIGHT_HIP pose.RIGHT_KNEE pose.RIGHT_ANKLE) / 2
    let hipAngle := (calculateHipAngle pose.LEFT_SHOULDER pose.LEFT_HIP pose.LEFT_KNEE +
      calculateHipAngle pose.RIGHT_SHOULDER pose.RIGHT_HIP pose.RIGHT_KNEE) / 2
    let torsoAngle := (calculateTorsoAngle pose.LEFT_SHOULDER pose.LEFT_HIP +
      calculateTorsoAngle pose.RIGHT_SHOULDER pose.RIGHT_HIP) / 2
    let hipHeight := ((getLm pose.LEFT_HIP).y + (getLm pose.RIGHT_HIP).y) / 2
    let kneeHeight := ((getLm pose.LEFT_KNEE).y + (getLm pose.RIGHT_KNEE).y) / 2
    let ankleHeight := ((getLm pose.LEFT_ANKLE).y + (getLm pose.RIGHT_ANKLE).y) / 2
    let legLength := |hipHeight - ankleHeight|
    let hipKneeDistance := hipHeight - kneeHeight
    let depth := if 0 < legLength then
        max 0 (min 100 (hipKneeDistance / legLength * 200)) else 0
    let kneesCavedIn := checkKneeCaveIn pose.LEFT_KNEE pose.RIGHT_KNEE
      pose.LEFT_ANKLE pose.RIGHT_ANKLE
    let leftKneeOverToes := checkKneesOverToes pose.LEFT_KNEE pose.LEFT_ANKLE
    let rightKneeOverToes := checkKneesOverToes pose.RIGHT_KNEE pose.RIGHT_ANKLE
    let c1 := (s.phase = .bottom ∨ s.phase = .descending) ∧ hipHeight > kneeHeight
    let c2 := kneesCavedIn = true
    let c3 := leftKneeOverToes = true ∨ rightKneeOverToes = true
    let c4 := torsoAngle > 30
    let c5 := hipAngle < 30 ∧ s.phase = .bottom
    let t1 := if c1 then (100 : ℝ) - 15 else 100
    let t2 := if c2 then t1 - 20 else t1
    let t3 := if c3 then t2 - 15 else t2
    let t4 := if c4 then t3 - 15 else t3
    let t5 := if c5 then t4 - 10 else t4
    { kneeAngle := kneeAngle
      hipAngle := hipAngle
      torsoAngle := torsoAngle
      depth := depth
      kneeAlignment := !kneesCavedIn
      kneesOverToes := leftKneeOverToes || rightKneeOverToes
      overallScore := max 0 t5
      feedback :=
        (if c1 then ["Go deeper - hips below knees"] else []) ++
        (if c2 then ["Push knees outward"] else []) ++
        (if c3 then ["Keep knees behind toes"] else []) ++
        (if c4 then ["Keep chest up"] else []) ++
        (if c5 then ["Engage hips more"] else []) }
  else
    { kneeAngle := 0
      hipAngle := 0
      torsoAngle := 0
      depth := 0
      kneeAlignment := false
      kneesOverToes := false
      overallScore := 0
      feedback := ["Cannot see full body clearly"] }

/-- The record returned by `SquatDetector.detectPhase`
(src/utils/squatAnalysis.ts line 147). -/
structure PhaseResult where
  phase : SquatPhase
  repCompleted : Bool
  repDuration : ℝ

/-- The bilateral average knee angle computed by `detectPhase`
(src/utils/squatAnalysis.ts lines 152-154). -/
noncomputable def avgKneeAngle (pose : PoseLandmarks) : ℝ :=
  (calculateKneeAngle pose.LEFT_HIP pose.LEFT_KNEE pose.LEFT_ANKLE +
    calculateKneeAngle pose.RIGHT_HIP pose.RIGHT_KNEE pose.RIGHT_ANKLE) / 2

/-- The hip height computed by `detectPhase`
(src/utils/squatAnalysis.ts line 156). -/
noncomputable def hipHeightOf (pose : PoseLandmarks) : ℝ :=
  ((getLm pose.LEFT_HIP).y + (getLm pose.RIGHT_HIP).y) / 2

/-- Body of `SquatDetector.detectPhase` after the validity gate
(src/utils/squatAnalysis.ts lines 152-207), parameterized by the two
measured quantities `angle = avgKneeAngle pose` and
`hip = hipHeightOf pose`, and by `now = Date.now()`.  Returns the updated
detector state together with the returned record. -/
noncomputable def detectPhaseValid (s : DetectorState) (angle hip now : ℝ) :
    DetectorState × PhaseResult :=
  let s1 := if s.highestHipHeight = 0 then { s with highestHipHeight := hip } else s
  let s2 := { s1 with phaseFrameCount := s1.phaseFrameCount + 1 }
  match s.phase with
  | .standing =>
    if angle < STANDING_KNEE_THRESHOLD ∧ s2.phaseFrameCount > DEBOUNCE_FRAMES then
      ({ s2 with
          phase := .descending
          lowestHipHeight := hip
          phaseFrameCount := 0
          repStartTime := now
          formScores := [] },
        ⟨.descending, false, 0⟩)
    else (s2, ⟨.standing, false, 0⟩)
  | .descending =>
    let s3 := if hip < s2.lowestHipHeight then { s2 with lowestHipHeight := hip } else s2
    if angle < BOTTOM_KNEE_THRESHOLD ∧ s3.phaseFrameCount > DEBOUNCE_FRAMES then
      if s3.highestHipHeight - s3.lowestHipHeight ≥ MIN_DESCENT_DISTANCE then
        ({ s3 with
            phase := .bottom
            phaseFrameCount := 0 },
          ⟨.bottom, false, 0⟩)
      else (s3, ⟨.descending, false, 0⟩)
    else (s3, ⟨.descending, false, 0⟩)
  | .bottom =>
    if angle > BOTTOM_KNEE_THRESHOLD + 10 ∧ s2.phaseFrameCount > DEBOUNCE_FRAMES then
      ({ s2 with
          phase := .ascending
          phaseFrameCount := 0 },
        ⟨.ascending, false, 0⟩)
    else (s2, ⟨.bottom, false, 0⟩)
  | .ascending =>
    if angle > STANDING_KNEE_THRESHOLD ∧ s2.phaseFrameCount > DEBOUNCE_FRAMES then
      if s2.highestHipHeight - s2.lowestHipHeight ≥ MIN_DESCENT_DISTANCE then
        ({ s2 with
            phase := .standing
            repCount := s2.repCount + 1
            highestHipHeight := hip
            phaseFrameCount := 0 },
          ⟨.standing, true, now - s2.repStartTime⟩)
      else
        ({ s2 with
            phase := .standing
            highestHipHeight := hip
            phaseFrameCount := 0 },
          ⟨.standing, false, 0⟩)
    else (s2, ⟨.ascending, false, 0⟩)

/-- `SquatDetector.detectPhase` (src/utils/squatAnalysis.ts lines 147-208):
an invalid frame is a no-op returning the current phase; a valid frame runs
the phase machine on the measured knee angle and hip height. -/
noncomputable def detectPhase (s : DetectorState) (pose : PoseLandmarks)
    (now : ℝ) : DetectorState × PhaseResult :=
  if isPoseValid pose then
    detectPhaseValid s (avgKneeAngle pose) (hipHeightOf pose) now
  else (s, ⟨s.phase, false, 0⟩)

/-- A timestamped input frame: the pose of one camera frame together with
the value of `Date.now()` at that call. -/
structure Frame where
  pose : PoseLandmarks
  now : ℝ

/-- Feeding a sequence of frames to `detectPhase`, state-to-state. -/
noncomputable def runDetector (s : DetectorState) (fs : List Frame) :
    DetectorState :=
  fs.foldl (fun s f => (detectPhase s f.pose f.now).1) s

/-- Ghost-instrumented step: alongside the detector state, record the
`now` of the most recent frame on which the phase moved from Standing to
Descending (the current cycle's Descending entry). -/
noncomputable def stepDesc (p : DetectorState × ℝ) (f : Frame) :
    DetectorState × ℝ :=
  let s' := (detectPhase p.1 f.pose f.now).1
  (s', if p.1.phase = .standing ∧ s'.phase = .descending then f.now else p.2)

/-- `SquatKeyframe` (src/utils/squatBiomechanics.ts lines 3-11). -/
structure SquatKeyframe where
  name : String
  progress : ℝ
  kneeAngle : ℝ
  hipAngle : ℝ
  ankleAngle : ℝ
  torsoAngle : ℝ
  description : String

/-- Keyframe 0 of `SQUAT_KEYFRAMES` (src/utils/squatBiomechanics.ts). -/
def kfStanding : SquatKeyframe :=
  ⟨"Standing", 0, 175, 175, 90, 5, "Starting position - fully extended"⟩

/-- Keyframe 1 of `SQUAT_KEYFRAMES`. -/
def kfEarlyDescent : SquatKeyframe :=
  ⟨"Early Descent", 0.20, 155, 150, 85, 15, "Initiating descent with hip hinge"⟩

/-- Keyframe 2 of `SQUAT_KEYFRAMES`. -/
def kfMidDescent : SquatKeyframe :=
  ⟨"Mid Descent", 0.40, 130, 120, 75, 30, "Halfway down with controlled movement"⟩

/-- Keyframe 3 of `SQUAT_KEYFRAMES`. -/
def kfBottom : SquatKeyframe :=
  ⟨"Bottom Position", 0.50, 110, 95, 70, 45, "Full depth - hip below knee"⟩

/-- Keyframe 4 of `SQUAT_KEYFRAMES`. -/
def kfEarlyAscent : SquatKeyframe :=
  ⟨"Early Ascent", 0.65, 130, 120, 75, 35, "Driving up through heels"⟩

/-- Keyframe 5 of `SQUAT_KEYFRAMES`. -/
def kfMidAscent : SquatKeyframe :=
  ⟨"Mid Ascent", 0.80, 155, 150, 85, 20, "Extending hips and knees"⟩

/-- Keyframe 6 of `SQUAT_KEYFRAMES`. -/
def kfNearComplete : SquatKeyframe :=
  ⟨"Near Complete", 0.95, 170, 170, 88, 8, "Almost fully extended"⟩

/-- Keyframe 7 of `SQUAT_KEYFRAMES`. -/
def kfStandingComplete : SquatKeyframe :=
  ⟨"Standing Complete", 1.0, 175, 175, 90, 5, "Completed rep - ready for next"⟩

/-- `SQUAT_KEYFRAMES` (src/utils/squatBiomechanics.ts lines 43-116). -/
def SQUAT_KEYFRAMES : List SquatKeyframe :=
  [kfStanding, kfEarlyDescent, kfMidDescent, kfBottom,
    kfEarlyAscent, kfMidAscent, kfNearComplete, kfStandingComplete]

/-- `BiomechanicalSquatPose` (src/utils/squatBiomechanics.ts lines 13-41):
a fully-present synthesized pose. -/
structure BiomechanicalSquatPose where
  NOSE : Landmark
  LEFT_EYE_INNER : Landmark
  LEFT_EYE : Landmark
  LEFT_EYE_OUTER : Landmark
  RIGHT_EYE_INNER : Landmark
  RIGHT_EYE : Landmark
  RIGHT_EYE_OUTER : Landmark
  LEFT_EAR : Landmark
  RIGHT_EAR : Landmark
  MOUTH_LEFT : Landmark
  MOUTH_RIGHT : Landmark
  LEFT_SHOULDER : Landmark
  RIGHT_SHOULDER : Landmark
  LEFT_ELBOW : Landmark
  RIGHT_ELBOW : Landmark
  LEFT_WRIST : Landmark
  RIGHT_WRIST : Landmark
  LEFT_HIP : Landmark
  RIGHT_HIP : Landmark
  LEFT_KNEE : Landmark
  RIGHT_KNEE : Landmark
  LEFT_ANKLE : Landmark
  RIGHT_ANKLE : Landmark
  LEFT_HEEL : Landmark
  RIGHT_HEEL : Landmark
  LEFT_FOOT_INDEX : Landmark
  RIGHT_FOOT_INDEX : Landmark

/-- `degreesToRadians` (src/utils/squatBiomechanics.ts lines 128-130). -/
noncomputable def degreesToRadians (degrees : ℝ) : ℝ :=
  degrees * (π / 180)

/-- `createLandmark` (src/utils/squatBiomechanics.ts lines 132-134), with
the source's default arguments passed explicitly at call sites. -/
def createLandmark (x y z visibility : ℝ) : Landmark :=
  ⟨x, y, z, some visibility⟩

/-- `generateBiomechanicalSquatPose` (src/utils/squatBiomechanics.ts lines
165-303).  The `BODY_PROPORTIONS` table (lines 118-126) is inlined:
shoulderToHipRatio 0.30, hipToKneeRatio 0.25, kneeToAnkleRatio 0.25,
shoulderWidth 0.20. -/
noncomputable def generateBiomechanicalSquatPose (keyframe : SquatKeyframe) :
    BiomechanicalSquatPose :=
  let centerX : ℝ := 0.5
  let baseY : ℝ := 0.1
  let shoulderWidth : ℝ := 0.20
  let hipWidth := shoulderWidth * 0.95
  let kneeWidth := shoulderWidth * 1.0
  let ankleWidth := shoulderWidth * 0.85
  let torsoAngleRad := degreesToRadians keyframe.torsoAngle
  let kneeAngleRad := degreesToRadians (180 - keyframe.kneeAngle)
  let hipAngleRad := degreesToRadians (180 - keyframe.hipAngle)
  let ankleAngleRad := degreesToRadians (keyframe.ankleAngle - 90)
  let depthFactor := 1 - (keyframe.kneeAngle - 110) / (175 - 110)
  let ankleY := baseY + 0.75
  let ankleZ : ℝ := -0.02
  let shinLength : ℝ := 0.25
  let kneeForward := Real.sin ankleAngleRad * shinLength * 0.3
  let kneeY := ankleY - shinLength + depthFactor * 0.15
  let kneeZ := ankleZ + kneeForward
  let thighLength : ℝ := 0.25
  let hipBackward := Real.sin hipAngleRad * thighLength * depthFactor * 0.4
  let hipY := kneeY - thighLength + depthFactor * 0.2
  let hipZ := kneeZ - hipBackward
  let torsoLength : ℝ := 0.30
  let shoulderForward := Real.sin torsoAngleRad * torsoLength * 0.5
  let shoulderY := hipY - torsoLength
  let shoulderZ := hipZ + shoulderForward
  let neckLength : ℝ := 0.08
  let headY := shoulderY - neckLength
  let leftAnkle := createLandmark (centerX - ankleWidth / 2) ankleY ankleZ 1
  let rightAnkle := createLandmark (centerX + ankleWidth / 2) ankleY ankleZ 1
  let leftHeel := createLandmark (centerX - ankleWidth / 2) (ankleY + 0.02) (ankleZ - 0.05) 1
  let rightHeel := createLandmark (centerX + ankleWidth / 2) (ankleY + 0.02) (ankleZ - 0.05) 1
  let footIndexOffset : ℝ := 0.06
  let leftFootIndex := createLandmark (centerX - ankleWidth / 2) (ankleY + 0.01)
    (ankleZ + footIndexOffset) 1
  let rightFootIndex := createLandmark (centerX + ankleWidth / 2) (ankleY + 0.01)
    (ankleZ + footIndexOffset) 1
  let leftKnee := createLandmark (centerX - kneeWidth / 2) kneeY kneeZ 1
  let rightKnee := createLandmark (centerX + kneeWidth / 2) kneeY kneeZ 1
  let leftHip := createLandmark (centerX - hipWidth / 2) hipY hipZ 1
  let rightHip := createLandmark (centerX + hipWidth / 2) hipY hipZ 1
  let leftShoulder := createLandmark (centerX - shoulderWidth / 2) shoulderY shoulderZ 1
  let rightShoulder := createLandmark (centerX + shoulderWidth / 2) shoulderY shoulderZ 1
  let armAngle := 45 + depthFactor * 20
  let armAngleRad := degreesToRadians armAngle
  let upperArmLength : ℝ := 0.15
  let forearmLength : ℝ := 0.14
  let leftElbow := createLandmark (leftShoulder.x - Real.cos armAngleRad * upperArmLength * 0.5)
    (leftShoulder.y + Real.sin armAngleRad * upperArmLength) (leftShoulder.z - 0.08) 1
  let rightElbow := createLandmark (rightShoulder.x + Real.cos armAngleRad * upperArmLength * 0.5)
    (rightShoulder.y + Real.sin armAngleRad * upperArmLength) (rightShoulder.z - 0.08) 1
  let leftWrist := createLandmark (leftElbow.x - 0.02) (leftElbow.y + forearmLength) leftElbow.z 1
  let rightWrist := createLandmark (rightElbow.x + 0.02) (rightElbow.y + forearmLength) rightElbow.z 1
  let headWidth : ℝ := 0.08
  let leftEar := createLandmark (centerX - headWidth / 2) headY (shoulderZ + 0.02) 1
  let rightEar := createLandmark (centerX + headWidth / 2) headY (shoulderZ + 0.02) 1
  let faceZ := shoulderZ + 0.05
  let nose := createLandmark centerX (headY + 0.02) faceZ 1
  let eyeY := headY + 0.01
  let eyeWidth : ℝ := 0.03
  let leftEye := createLandmark (centerX - eyeWidth / 2) eyeY faceZ 1
  let rightEye := createLandmark (centerX + eyeWidth / 2) eyeY faceZ 1
  let leftEyeInner := createLandmark (centerX - eyeWidth / 4) eyeY faceZ 1
  let rightEyeInner := createLandmark (centerX + eyeWidth / 4) eyeY faceZ 1
  let leftEyeOuter := createLandmark (centerX - eyeWidth * 0.75) eyeY faceZ 1
  let rightEyeOuter := createLandmark (centerX + eyeWidth * 0.75) eyeY faceZ 1
  let mouthY := headY + 0.04
  let mouthWidth : ℝ := 0.025
  let mouthLeft := createLandmark (centerX - mouthWidth) mouthY faceZ 1
  let mouthRight := createLandmark (centerX + mouthWidth) mouthY faceZ 1
  { NOSE := nose
    LEFT_EYE_INNER := leftEyeInner
    LEFT_EYE := leftEye
    LEFT_EYE_OUTER := leftEyeOuter
    RIGHT_EYE_INNER := rightEyeInner
    RIGHT_EYE := rightEye
    RIGHT_EYE_OUTER := rightEyeOuter
    LEFT_EAR := leftEar
    RIGHT_EAR := rightEar
    MOUTH_LEFT := mouthLeft
    MOUTH_RIGHT := mouthRight
    LEFT_SHOULDER := leftShoulder
    RIGHT_SHOULDER := rightShoulder
    LEFT_ELBOW := leftElbow
    RIGHT_ELBOW := rightElbow
    LEFT_WRIST := leftWrist
    RIGHT_WRIST := rightWrist
    LEFT_HIP := leftHip
    RIGHT_HIP := rightHip
    LEFT_KNEE := leftKnee
    RIGHT_KNEE := rightKnee
    LEFT_ANKLE := leftAnkle
    RIGHT_ANKLE := rightAnkle
    LEFT_HEEL := leftHeel
    RIGHT_HEEL := rightHeel
    LEFT_FOOT_INDEX := leftFootIndex
    RIGHT_FOOT_INDEX := rightFootIndex }

/-- TypeScript passes a fully-present pose structurally where the detector
pose type is expected; this adapter injects the eight analyzed joints. -/
def toUserPose (p : BiomechanicalSquatPose) : PoseLandmarks :=
  { LEFT_SHOULDER := some p.LEFT_SHOULDER
    RIGHT_SHOULDER := some p.RIGHT_SHOULDER
    LEFT_HIP := some p.LEFT_HIP
    RIGHT_HIP := some p.RIGHT_HIP
    LEFT_KNEE := some p.LEFT_KNEE
    RIGHT_KNEE := some p.RIGHT_KNEE
    LEFT_ANKLE := some p.LEFT_ANKLE
    RIGHT_ANKLE := some p.RIGHT_ANKLE }

/-- Feedback severity (src/utils/advancedFormAnalysis.ts line 31). -/
inductive Severity where
  | critical
  | warning
  | info
  deriving DecidableEq, Repr

/-- The `severityOrder` ranking used to sort feedback
(src/utils/advancedFormAnalysis.ts lines 248-251). -/
def severityOrder : Severity → ℕ
  | .critical => 0
  | .warning => 1
  | .info => 2

/-- `FeedbackItem` (src/utils/advancedFormAnalysis.ts lines 30-36).  The
numeric degree count interpolated into one message string is abstracted
away; all branch structure is kept. -/
structure FeedbackItem where
  severity : Severity
  message : String
  joint : String
  expectedAngle : Option ℝ
  actualAngle : Option ℝ

/-- Weight-distribution classification
(src/utils/advancedFormAnalysis.ts line 21). -/
inductive WeightDistribution where
  | centered
  | forward
  | backward
  deriving DecidableEq, Repr

/-- `AlignmentAnalysis` (src/utils/advancedFormAnalysis.ts lines 17-22). -/
structure AlignmentAnalysis where
  kneeValgus : Bool
  kneesOverToes : Bool
  spineNeutral : Bool
  weightDistribution : WeightDistribution

/-- Movement-speed / tempo classification
(src/utils/advancedFormAnalysis.ts lines 27 and 261). -/
inductive MovementSpeed where
  | too_fast
  | optimal
  | too_slow
  deriving DecidableEq, Repr

/-- `TimingAnalysis` (src/utils/advancedFormAnalysis.ts lines 24-28). -/
structure TimingAnalysis where
  currentPhase : SquatPhase
  phaseDuration : ℝ
  movementSpeed : MovementSpeed

/-- `DetailedFormAnalysis` (src/utils/advancedFormAnalysis.ts lines 5-15);
the scores are `Math.round`ed integers. -/
structure DetailedFormAnalysis where
  overallScore : ℤ
  kneeScore : ℤ
  hipScore : ℤ
  torsoScore : ℤ
  ankleScore : ℤ
  depthScore : ℤ
  alignment : AlignmentAnalysis
  timing : TimingAnalysis
  feedback : List FeedbackItem

/-- `calculateAngleDifference` (src/utils/advancedFormAnalysis.ts
lines 38-40). -/
noncomputable def calculateAngleDifference (angle1 angle2 : ℝ) : ℝ :=
  |angle1 - angle2|

/-- `analyzeFormAgainstCoach` (src/utils/advancedFormAnalysis.ts lines
50-253).  `coachPose` is accepted but, as in the source, never read. -/
noncomputable def analyzeFormAgainstCoach (userPose : PoseLandmarks)
    (coachPose : BiomechanicalSquatPose) (targetKeyframe : SquatKeyframe) :
    DetailedFormAnalysis :=
  let userKneeAngle := (calculateKneeAngle userPose.LEFT_HIP userPose.LEFT_KNEE userPose.LEFT_ANKLE +
    calculateKneeAngle userPose.RIGHT_HIP userPose.RIGHT_KNEE userPose.RIGHT_ANKLE) / 2
  let kneeDiff := calculateAngleDifference userKneeAngle targetKeyframe.kneeAngle
  let kneeScore := max 0 (100 - kneeDiff * 2)
  let fbKnee : List FeedbackItem :=
    if kneeDiff > 20 then
      [⟨.critical,
        if userKneeAngle < targetKeyframe.kneeAngle then "Knee angle off - Squat deeper"
        else "Knee angle off - Dont go as deep",
        "knee", some targetKeyframe.kneeAngle, some userKneeAngle⟩]
    else if kneeDiff > 10 then
      [⟨.warning, "Adjust knee depth to match coach", "knee",
        some targetKeyframe.kneeAngle, some userKneeAngle⟩]
    else []
  let dKnee : ℝ := if kneeDiff > 20 then 15 else if kneeDiff > 10 then 8 else 0
  let userHipAngle := (calculateHipAngle userPose.LEFT_SHOULDER userPose.LEFT_HIP userPose.LEFT_KNEE +
    calculateHipAngle userPose.RIGHT_SHOULDER userPose.RIGHT_HIP userPose.RIGHT_KNEE) / 2
  let hipDiff := calculateAngleDifference userHipAngle targetKeyframe.hipAngle
  let hipScore := max 0 (100 - hipDiff * 2)
  let fbHip : List FeedbackItem :=
    if hipDiff > 20 then
      [⟨.critical,
        if userHipAngle < targetKeyframe.hipAngle then "Hip angle off - Engage hips more"
        else "Hip angle off - Reduce hip flexion",
        "hip", some targetKeyframe.hipAngle, some userHipAngle⟩]
    else if hipDiff > 10 then
      [⟨.warning, "Adjust hip position", "hip", none, none⟩]
    else []
  let dHip : ℝ := if hipDiff > 20 then 12 else if hipDiff > 10 then 6 else 0
  let userTorsoAngle := (calculateTorsoAngle userPose.LEFT_SHOULDER userPose.LEFT_HIP +
    calculateTorsoAngle userPose.RIGHT_SHOULDER userPose.RIGHT_HIP) / 2
  let torsoDiff := calculateAngleDifference userTorsoAngle targetKeyframe.torsoAngle
  let torsoScore := max 0 (100 - torsoDiff * 2.5)
  let fbTorso : List FeedbackItem :=
    if userTorsoAngle > 60 then
      [⟨.critical, "Keep chest up - excessive forward lean", "torso",
        some targetKeyframe.torsoAngle, some userTorsoAngle⟩]
    else if torsoDiff > 15 then
      [⟨.warning,
        if userTorsoAngle > targetKeyframe.torsoAngle then "Chest up more"
        else "Lean forward slightly",
        "torso", none, none⟩]
    else []
  let dTorso : ℝ := if userTorsoAngle > 60 then 15 else if torsoDiff > 15 then 8 else 0
  let userHipHeight := ((getLm userPose.LEFT_HIP).y + (getLm userPose.RIGHT_HIP).y) / 2
  let userKneeHeight := ((getLm userPose.LEFT_KNEE).y + (getLm userPose.RIGHT_KNEE).y) / 2
  let depthGate := targetKeyframe.progress > 0.4 ∧ targetKeyframe.progress < 0.6
  let depthScore : ℝ :=
    if depthGate then
      (if userHipHeight < userKneeHeight then 100
       else max 0 (100 - (userHipHeight - userKneeHeight) * 100))
    else 100
  let fbDepth : List FeedbackItem :=
    if depthGate ∧ ¬ userHipHeight < userKneeHeight then
      [⟨.critical, "Go deeper - hips must drop below knees", "hip", none, none⟩]
    else []
  let dDepth : ℝ := if depthGate ∧ ¬ userHipHeight < userKneeHeight then 20 else 0
  let kneeWidth := |(getLm userPose.LEFT_KNEE).x - (getLm userPose.RIGHT_KNEE).x|
  let ankleWidth := |(getLm userPose.LEFT_ANKLE).x - (getLm userPose.RIGHT_ANKLE).x|
  let kneeValgus := kneeWidth < ankleWidth * 0.8
  let fbValgus : List FeedbackItem :=
    if kneeValgus then
      [⟨.critical, "Push knees outward - prevent knee cave", "knee", none, none⟩]
    else []
  let dValgus : ℝ := if kneeValgus then 20 else 0
  let leftKneeOverToes := (getLm userPose.LEFT_KNEE).x > (getLm userPose.LEFT_ANKLE).x + 0.05
  let rightKneeOverToes := (getLm userPose.RIGHT_KNEE).x < (getLm userPose.RIGHT_ANKLE).x - 0.05
  let kneesOverToes := leftKneeOverToes ∨ rightKneeOverToes
  let fbToes : List FeedbackItem :=
    if kneesOverToes then
      [⟨.warning, "Knees tracking too far forward", "knee", none, none⟩]
    else []
  let dToes : ℝ := if kneesOverToes then 10 else 0
  let spineNeutral := userTorsoAngle < 60 ∧ userTorsoAngle > 0
  let avgX := ((getLm userPose.LEFT_ANKLE).x + (getLm userPose.RIGHT_ANKLE).x) / 2
  let hipX := ((getLm userPose.LEFT_HIP).x + (getLm userPose.RIGHT_HIP).x) / 2
  let weightDistribution : WeightDistribution :=
    if |hipX - avgX| < 0.05 then .centered
    else if hipX > avgX then .forward else .backward
  let fbWeight : List FeedbackItem :=
    if weightDistribution ≠ .centered then
      [⟨.warning,
        if weightDistribution = .forward then "Weight too far forward - center over mid-foot"
        else "Weight too far backward - center over mid-foot",
        "balance", none, none⟩]
    else []
  let dWeight : ℝ := if weightDistribution ≠ .centered then 8 else 0
  let totalScore := 100 - dKnee - dHip - dTorso - dDepth - dValgus - dToes - dWeight
  { overallScore := round (max 0 (min 100 totalScore))
    kneeScore := round kneeScore
    hipScore := round hipScore
    torsoScore := round torsoScore
    ankleScore := 100
    depthScore := round depthScore
    alignment :=
      { kneeValgus := if kneeValgus then true else false
        kneesOverToes := if kneesOverToes then true else false
        spineNeutral := if spineNeutral then true else false
        weightDistribution := weightDistribution }
    timing :=
      { currentPhase :=
          if targetKeyframe.progress < 0.25 then .descending
          else if targetKeyframe.progress < 0.55 then .bottom
          else if targetKeyframe.progress < 0.95 then .ascending
          else .standing
        phaseDuration := 0
        movementSpeed := .optimal }
    feedback :=
      (fbKnee ++ fbHip ++ fbTorso ++ fbDepth ++ fbValgus ++ fbToes ++ fbWeight).mergeSort
        (fun a b => severityOrder a.severity ≤ severityOrder b.severity) }

/-- The record returned by `calculateMovementQuality`
(src/utils/advancedFormAnalysis.ts lines 258-263). -/
structure MovementQuality where
  averageForm : ℤ
  consistency : ℤ
  tempo : MovementSpeed
  recommendation : String

/-- `reduce((a, b) => a + b, 0)` on a list of numbers. -/
def listSum (xs : List ℝ) : ℝ :=
  xs.foldl (· + ·) 0

/-- `calculateMovementQuality` (src/utils/advancedFormAnalysis.ts lines
255-311). -/
noncomputable def calculateMovementQuality (formScores repDurations : List ℝ) :
    MovementQuality :=
  if formScores = [] then
    ⟨0, 0, .optimal, "Keep practicing to establish baseline"⟩
  else
    let averageForm := listSum formScores / formScores.length
    let variance :=
      (formScores.foldl (fun sum score => sum + (score - averageForm) ^ 2) 0) /
        formScores.length
    let standardDeviation := Real.sqrt variance
    let consistency := max 0 (100 - standardDeviation * 2)
    let tempo : MovementSpeed :=
      if repDurations = [] then .optimal
      else
        let avgDuration := listSum repDurations / repDurations.length
        if avgDuration < 3000 then .too_fast
        else if avgDuration > 7000 then .too_slow
        else .optimal
    let base :=
      if averageForm < 60 then "Focus on form over speed - reduce weight if needed"
      else if averageForm < 80 then "Good progress - refine depth and alignment"
      else if consistency < 70 then "Great form - work on consistency across reps"
      else "Excellent form and consistency - consider adding weight"
    let recommendation :=
      base ++
        (if tempo = .too_fast then " | Slow down your descent (2-3 seconds)"
         else if tempo = .too_slow then " | Speed up slightly while maintaining control"
         else "")
    ⟨round averageForm, round consistency, tempo, recommendation⟩

/-- A fully-visible landmark at `(x, y)` (test fixture). -/
def lmAt (x y : ℝ) : Option Landmark :=
  some ⟨x, y, 0, some 1⟩

/-- Test fixture: a fully-visible pose whose hip/knee/ankle are vertically
collinear, so both knee angles are 180; hips sit at height `h`. -/
def poseStraight (h : ℝ) : PoseLandmarks :=
  { LEFT_SHOULDER := lmAt 0.4 (h - 0.3)
    RIGHT_SHOULDER := lmAt 0.6 (h - 0.3)
    LEFT_HIP := lmAt 0.4 h
    RIGHT_HIP := lmAt 0.6 h
    LEFT_KNEE := lmAt 0.4 (h + 0.25)
    RIGHT_KNEE := lmAt 0.6 (h + 0.25)
    LEFT_ANKLE := lmAt 0.4 (h + 0.5)
    RIGHT_ANKLE := lmAt 0.6 (h + 0.5) }

/-- Test fixture: a fully-visible pose with right-angle knees (90 degrees);
hips sit at height `h`. -/
def poseBent (h : ℝ) : PoseLandmarks :=
  { LEFT_SHOULDER := lmAt 0.4 (h - 0.3)
    RIGHT_SHOULDER := lmAt 0.6 (h - 0.3)
    LEFT_HIP := lmAt 0.4 h
    RIGHT_HIP := lmAt 0.6 h
    LEFT_KNEE := lmAt 0.4 (h + 0.25)
    RIGHT_KNEE := lmAt 0.6 (h + 0.25)
    LEFT_ANKLE := lmAt 0.65 (h + 0.25)
    RIGHT_ANKLE := lmAt 0.85 (h + 0.25) }

/-- Test fixture: a fully-visible pose with 45-degree knees; hips sit at
height `h`. -/
def poseDeep (h : ℝ) : PoseLandmarks :=
  { LEFT_SHOULDER := lmAt 0.4 (h - 0.3)
    RIGHT_SHOULDER := lmAt 0.6 (h - 0.3)
    LEFT_HIP := lmAt 0.4 h
    RIGHT_HIP := lmAt 0.6 h
    LEFT_KNEE := lmAt 0.4 (h + 0.25)
    RIGHT_KNEE := lmAt 0.6 (h + 0.25)
    LEFT_ANKLE := lmAt 0.65 h
    RIGHT_ANKLE := lmAt 0.85 h }

/-- Test fixture: a fully-visible pose with 135-degree knees; hips sit at
height `h`. -/
def poseRise (h : ℝ) : PoseLandmarks :=
  { LEFT_SHOULDER := lmAt 0.4 (h - 0.3)
    RIGHT_SHOULDER := lmAt 0.6 (h - 0.3)
    LEFT_HIP := lmAt 0.4 h
    RIGHT_HIP := lmAt 0.6 h
    LEFT_KNEE := lmAt 0.4 (h + 0.25)
    RIGHT_KNEE := lmAt 0.6 (h + 0.25)
    LEFT_ANKLE := lmAt 0.65 (h + 0.5)
    RIGHT_ANKLE := lmAt 0.85 (h + 0.5) }

/-- Test fixture: a pose with every landmark absent (fails the validity
gate). -/
def poseNone : PoseLandmarks :=
  ⟨none, none, none, none, none, none, none, none⟩

/-! ### Arctangent helper lemmas -/

lemma arctan_nonneg_of {t : ℝ} (h : 0 ≤ t) : 0 ≤ arctan t := by
  have := Real.arctan_strictMono.monotone h
  simpa [Real.arctan_zero] using this

lemma arctan_nonpos_of {t : ℝ} (h : t ≤ 0) : arctan t ≤ 0 := by
  have := Real.arctan_strictMono.monotone h
  simpa [Real.arctan_zero] using this

lemma arctan_pos_of {t : ℝ} (h : 0 < t) : 0 < arctan t := by
  have := Real.arctan_strictMono h
  simpa [Real.arctan_zero] using this

lemma arctan_lt_self {t : ℝ} (h : 0 < t) : arctan t < t := by
  have h1 : 0 < arctan t := arctan_pos_of h
  have h2 : arctan t < π / 2 := Real.arctan_lt_pi_div_two t
  have h3 : arctan t < Real.tan (arctan t) := Real.lt_tan h1 h2
  simpa [Real.tan_arctan] using h3

lemma lt_arctan_of_pos {t : ℝ} (h : 0 < t) : π / 2 - t⁻¹ < arctan t := by
  have h1 : arctan t⁻¹ < t⁻¹ := arctan_lt_self (by positivity)
  have h2 : arctan t⁻¹ = π / 2 - arctan t := Real.arctan_inv_of_pos h
  linarith

/-! ### Evaluation and range of `atan2` -/

lemma atan2_pos_x {y x : ℝ} (hx : 0 < x) : atan2 y x = arctan (y / x) := by
  simp [atan2, hx]

lemma atan2_zero_x_pos {y : ℝ} (hy : 0 < y) : atan2 y 0 = π / 2 := by
  simp [atan2, hy]

lemma atan2_zero_x_neg {y : ℝ} (hy : y < 0) : atan2 y 0 = -(π / 2) := by
  simp [atan2, hy, not_lt.mpr hy.le, asymm hy]

lemma atan2_neg_x_nonneg {y x : ℝ} (hx : x < 0) (hy : 0 ≤ y) :
    atan2 y x = arctan (y / x) + π := by
  simp [atan2, hx, hy, not_lt.mpr hx.le]

lemma atan2_neg_x_neg {y x : ℝ} (hx : x < 0) (hy : y < 0) :
    atan2 y x = arctan (y / x) - π := by
  simp [atan2, hx, not_lt.mpr hx.le, not_le.mpr hy]

lemma neg_pi_lt_atan2 (y x : ℝ) : -π < atan2 y x := by
  have hpi := Real.pi_pos
  have hlo := Real.neg_pi_div_two_lt_arctan (y / x)
  have hhi := Real.arctan_lt_pi_div_two (y / x)
  unfold atan2
  split_ifs with h1 h2 h3 h4 h5
  · linarith
  · -- x < 0, 0 ≤ y
    linarith
  · -- x < 0, y < 0: y / x > 0 so arctan is positive
    have hpos : 0 < y / x := div_pos_of_neg_of_neg (not_le.mp h3) h2
    have := arctan_pos_of hpos
    linarith
  · linarith
  · linarith
  · linarith

lemma atan2_le_pi (y x : ℝ) : atan2 y x ≤ π := by
  have hpi := Real.pi_pos
  have hlo := Real.neg_pi_div_two_lt_arctan (y / x)
  have hhi := Real.arctan_lt_pi_div_two (y / x)
  unfold atan2
  split_ifs with h1 h2 h3 h4 h5
  · linarith
  · -- x < 0, 0 ≤ y: y / x ≤ 0 so arctan is nonpositive
    have hnp : y / x ≤ 0 := div_nonpos_of_nonneg_of_nonpos h3 h2.le
    have := arctan_nonpos_of hnp
    linarith
  · linarith
  · linarith
  · linarith
  · linarith

/-- C9: `calculateAngle` always returns a degree value within [0, 180]; when
any of the three input landmarks is absent it returns 0 as a defined
fallback (no error case exists). -/
theorem C9_calculateAngle_range_and_fallback (a b c : Option Landmark) :
    0 ≤ calculateAngle a b c ∧ calculateAngle a b c ≤ 180 ∧
      ((a = none ∨ b = none ∨ c = none) → calculateAngle a b c = 0) := by
  have hpi := Real.pi_pos
  match a, b, c with
  | none, b, c =>
    have h0 : calculateAngle none b c = 0 := rfl
    exact ⟨by rw [h0], by rw [h0]; norm_num, fun _ => h0⟩
  | some a, none, c =>
    have h0 : calculateAngle (some a) none c = 0 := rfl
    exact ⟨by rw [h0], by rw [h0]; norm_num, fun _ => h0⟩
  | some a, some b, none =>
    have h0 : calculateAngle (some a) (some b) none = 0 := rfl
    exact ⟨by rw [h0], by rw [h0]; norm_num, fun _ => h0⟩
  | some a, some b, some c =>
    refine ⟨?_, ?_, ?_⟩
    · show 0 ≤ calculateAngle (some a) (some b) (some c)
      unfold calculateAngle
      set r := atan2 (c.y - b.y) (c.x - b.x) - atan2 (a.y - b.y) (a.x - b.x) with hr
      have habs : |r * 180 / π| = |r| * 180 / π := by
        rw [abs_div, abs_mul, abs_of_pos hpi]
        norm_num
      have hrlt : |r| < 2 * π := by
        have l1 := neg_pi_lt_atan2 (c.y - b.y) (c.x - b.x)
        have u1 := atan2_le_pi (c.y - b.y) (c.x - b.x)
        have l2 := neg_pi_lt_atan2 (a.y - b.y) (a.x - b.x)
        have u2 := atan2_le_pi (a.y - b.y) (a.x - b.x)
        rw [abs_lt]
        constructor <;> [skip; skip] <;> rw [hr] <;> linarith
      have hdeg : |r * 180 / π| < 360 := by
        rw [habs]
        rw [div_lt_iff hpi]
        calc |r| * 180 < 2 * π * 180 := by
              have : (0:ℝ) < 180 := by norm_num
              exact mul_lt_mul_of_pos_right hrlt this
          _ = 360 * π := by ring
      simp only []
      split_ifs with hgt
      · linarith
      · positivity
    · show calculateAngle (some a) (some b) (some c) ≤ 180
      unfold calculateAngle
      set r := atan2 (c.y - b.y) (c.x - b.x) - atan2 (a.y - b.y) (a.x - b.x) with hr
      have habs : (0:ℝ) ≤ |r * 180 / π| := abs_nonneg _
      simp only []
      split_ifs with hgt
      · linarith
      · linarith [not_lt.mp hgt]
    · intro h
      rcases h with h | h | h <;> simp_all

/-- Witness for C9: the fallback fires on absent landmarks, and the range
holds at a concrete landmark triple. -/
theorem C9_witness :
    calculateAngle none none none = 0 ∧
      0 ≤ calculateAngle (lmAt 0 0) (lmAt 1 0) (lmAt 1 1) ∧
      calculateAngle (lmAt 0 0) (lmAt 1 0) (lmAt 1 1) ≤ 180 :=
  ⟨(C9_calculateAngle_range_and_fallback none none none).2.2 (Or.inl rfl),
    (C9_calculateAngle_range_and_fallback _ _ _).1,
    (C9_calculateAngle_range_and_fallback _ _ _).2.1⟩

/-! ### Concrete angle evaluations for the test fixtures -/

lemma calculateAngle_lmAt (x1 y1 x2 y2 x3 y3 : ℝ) :
    calculateAngle (lmAt x1 y1) (lmAt x2 y2) (lmAt x3 y3) =
      (if |(atan2 (y3 - y2) (x3 - x2) - atan2 (y1 - y2) (x1 - x2)) * 180 / π| > 180
       then 360 - |(atan2 (y3 - y2) (x3 - x2) - atan2 (y1 - y2) (x1 - x2)) * 180 / π|
       else |(atan2 (y3 - y2) (x3 - x2) - atan2 (y1 - y2) (x1 - x2)) * 180 / π|) :=
  rfl

lemma angle_vertical (x h : ℝ) :
    calculateAngle (lmAt x h) (lmAt x (h + 0.25)) (lmAt x (h + 0.5)) = 180 := by
  rw [calculateAngle_lmAt]
  have e1 : h + 0.5 - (h + 0.25) = (0.25 : ℝ) := by ring
  have e2 : h - (h + 0.25) = (-0.25 : ℝ) := by ring
  have e3 : x - x = (0 : ℝ) := by ring
  rw [e1, e2, e3, atan2_zero_x_pos (by norm_num), atan2_zero_x_neg (by norm_num)]
  have e4 : (π / 2 - -(π / 2)) * 180 / π = 180 := by
    rw [div_eq_iff Real.pi_ne_zero]; ring
  rw [e4]
  norm_num

lemma angle_bent (x h : ℝ) :
    calculateAngle (lmAt x h) (lmAt x (h + 0.25)) (lmAt (x + 0.25) (h + 0.25)) = 90 := by
  rw [calculateAngle_lmAt]
  have e1 : h + 0.25 - (h + 0.25) = (0 : ℝ) := by ring
  have e2 : h - (h + 0.25) = (-0.25 : ℝ) := by ring
  have e3 : x - x = (0 : ℝ) := by ring
  have e5 : x + 0.25 - x = (0.25 : ℝ) := by ring
  rw [e1, e2, e3, e5, atan2_pos_x (by norm_num), atan2_zero_x_neg (by norm_num)]
  have e6 : (0 : ℝ) / 0.25 = 0 := by norm_num
  rw [e6, Real.arctan_zero]
  have e4 : (0 - -(π / 2)) * 180 / π = 90 := by
    rw [div_eq_iff Real.pi_ne_zero]; ring
  rw [e4]
  norm_num

lemma angle_deep (x h : ℝ) :
    calculateAngle (lmAt x h) (lmAt x (h + 0.25)) (lmAt (x + 0.25) h) = 45 := by
  rw [calculateAngle_lmAt]
  have e1 : h - (h + 0.25) = (-0.25 : ℝ) := by ring
  have e3 : x - x = (0 : ℝ) := by ring
  have e5 : x + 0.25 - x = (0.25 : ℝ) := by ring
  rw [e1, e3, e5, atan2_pos_x (by norm_num), atan2_zero_x_neg (by norm_num)]
  have e6 : (-0.25 : ℝ) / 0.25 = -1 := by norm_num
  rw [e6, show arctan (-1) = -arctan 1 from Real.arctan_neg 1, Real.arctan_one]
  have e4 : (-(π / 4) - -(π / 2)) * 180 / π = 45 := by
    rw [div_eq_iff Real.pi_ne_zero]; ring
  rw [e4]
  norm_num

lemma angle_rise (x h : ℝ) :
    calculateAngle (lmAt x h) (lmAt x (h + 0.25)) (lmAt (x + 0.25) (h + 0.5)) = 135 := by
  rw [calculateAngle_lmAt]
  have e1 : h + 0.5 - (h + 0.25) = (0.25 : ℝ) := by ring
  have e2 : h - (h + 0.25) = (-0.25 : ℝ) := by ring
  have e3 : x - x = (0 : ℝ) := by ring
  have e5 : x + 0.25 - x = (0.25 : ℝ) := by ring
  rw [e1, e2, e3, e5, atan2_pos_x (by norm_num), atan2_zero_x_neg (by norm_num)]
  have e6 : (0.25 : ℝ) / 0.25 = 1 := by norm_num
  rw [e6, Real.arctan_one]
  have e4 : (π / 4 - -(π / 2)) * 180 / π = 135 := by
    rw [div_eq_iff Real.pi_ne_zero]; ring
  rw [e4]
  norm_num

lemma avgKnee_poseStraight (h : ℝ) : avgKneeAngle (poseStraight h) = 180 := by
  unfold avgKneeAngle poseStraight calculateKneeAngle
  rw [angle_vertical 0.4 h, angle_vertical 0.6 h]
  norm_num

lemma avgKnee_poseBent (h : ℝ) : avgKneeAngle (poseBent h) = 90 := by
  unfold avgKneeAngle poseBent calculateKneeAngle
  rw [show (0.65 : ℝ) = 0.4 + 0.25 by norm_num, show (0.85 : ℝ) = 0.6 + 0.25 by norm_num,
    angle_bent 0.4 h, angle_bent 0.6 h]
  norm_num

lemma avgKnee_poseDeep (h : ℝ) : avgKneeAngle (poseDeep h) = 45 := by
  unfold avgKneeAngle poseDeep calculateKneeAngle
  rw [show (0.65 : ℝ) = 0.4 + 0.25 by norm_num, show (0.85 : ℝ) = 0.6 + 0.25 by norm_num,
    angle_deep 0.4 h, angle_deep 0.6 h]
  norm_num

lemma avgKnee_poseRise (h : ℝ) : avgKneeAngle (poseRise h) = 135 := by
  unfold avgKneeAngle poseRise calculateKneeAngle
  rw [show (0.65 : ℝ) = 0.4 + 0.25 by norm_num, show (0.85 : ℝ) = 0.6 + 0.25 by norm_num,
    angle_rise 0.4 h, angle_rise 0.6 h]
  norm_num

lemma hip_poseStraight (h : ℝ) : hipHeightOf (poseStraight h) = h := by
  simp [hipHeightOf, poseStraight, lmAt, getLm]

lemma hip_poseBent (h : ℝ) : hipHeightOf (poseBent h) = h := by
  simp [hipHeightOf, poseBent, lmAt, getLm]

lemma hip_poseDeep (h : ℝ) : hipHeightOf (poseDeep h) = h := by
  simp [hipHeightOf, poseDeep, lmAt, getLm]

lemma hip_poseRise (h : ℝ) : hipHeightOf (poseRise h) = h := by
  simp [hipHeightOf, poseRise, lmAt, getLm]

lemma valid_poseStraight (h : ℝ) : isPoseValid (poseStraight h) := by
  norm_num [isPoseValid, lmValid, poseStraight, lmAt, MIN_VISIBILITY]

lemma valid_poseBent (h : ℝ) : isPoseValid (poseBent h) := by
  norm_num [isPoseValid, lmValid, poseBent, lmAt, MIN_VISIBILITY]

lemma valid_poseDeep (h : ℝ) : isPoseValid (poseDeep h) := by
  norm_num [isPoseValid, lmValid, poseDeep, lmAt, MIN_VISIBILITY]

lemma valid_poseRise (h : ℝ) : isPoseValid (poseRise h) := by
  norm_num [isPoseValid, lmValid, poseRise, lmAt, MIN_VISIBILITY]

lemma not_valid_poseNone : ¬ isPoseValid poseNone := by
  simp [isPoseValid, lmValid, poseNone]

/-! ### Unfolding lemmas for the phase machine -/

lemma detectPhase_of_valid (s : DetectorState) (pose : PoseLandmarks) (now : ℝ)
    (hv : isPoseValid pose) :
    detectPhase s pose now = detectPhaseValid s (avgKneeAngle pose) (hipHeightOf pose) now := by
  simp [detectPhase, hv]

lemma detectPhase_of_invalid (s : DetectorState) (pose : PoseLandmarks) (now : ℝ)
    (hv : ¬ isPoseValid pose) :
    detectPhase s pose now = (s, ⟨s.phase, false, 0⟩) := by
  simp [detectPhase, hv]

lemma dpv_standing (s : DetectorState) (angle hip now : ℝ) (h : s.phase = .standing) :
    detectPhaseValid s angle hip now =
      if angle < STANDING_KNEE_THRESHOLD ∧ s.phaseFrameCount + 1 > DEBOUNCE_FRAMES then
        ({ phase := .descending
           repCount := s.repCount
           lowestHipHeight := hip
           highestHipHeight := if s.highestHipHeight = 0 then hip else s.highestHipHeight
           phaseFrameCount := 0
           startTime := s.startTime
           formScores := []
           repStartTime := now }, ⟨.descending, false, 0⟩)
      else
        ({ s with
            highestHipHeight := if s.highestHipHeight = 0 then hip else s.highestHipHeight
            phaseFrameCount := s.phaseFrameCount + 1 }, ⟨.standing, false, 0⟩) := by
  obtain ⟨ph, rc, low, high, cnt, st, fs, rst⟩ := s
  simp only at h
  subst h
  by_cases hh : high = (0 : ℝ) <;>
    simp [detectPhaseValid, hh] <;> split_ifs <;> simp_all

lemma dpv_descending (s : DetectorState) (angle hip now : ℝ) (h : s.phase = .descending) :
    detectPhaseValid s angle hip now =
      (let high := if s.highestHipHeight = 0 then hip else s.highestHipHeight
       let low := if hip < s.lowestHipHeight then hip else s.lowestHipHeight
       if angle < BOTTOM_KNEE_THRESHOLD ∧ s.phaseFrameCount + 1 > DEBOUNCE_FRAMES ∧
           high - low ≥ MIN_DESCENT_DISTANCE then
         ({ phase := .bottom
            repCount := s.repCount
            lowestHipHeight := low
            highestHipHeight := high
            phaseFrameCount := 0
            startTime := s.startTime
            formScores := s.formScores
            repStartTime := s.repStartTime }, ⟨.bottom, false, 0⟩)
       else
         ({ s with
             highestHipHeight := high
             lowestHipHeight := low
             phaseFrameCount := s.phaseFrameCount + 1 }, ⟨.descending, false, 0⟩)) := by
  obtain ⟨ph, rc, low, high, cnt, st, fs, rst⟩ := s
  simp only at h
  subst h
  by_cases hh : high = (0 : ℝ) <;> by_cases hl : hip < low <;>
    simp only [detectPhaseValid, hh, hl, if_true, if_false, ite_true, ite_false] <;>
    split_ifs <;> simp_all <;> first | linarith | tauto

lemma dpv_bottom (s : DetectorState) (angle hip now : ℝ) (h : s.phase = .bottom) :
    detectPhaseValid s angle hip now =
      (let high := if s.highestHipHeight = 0 then hip else s.highestHipHeight
       if angle > BOTTOM_KNEE_THRESHOLD + 10 ∧ s.phaseFrameCount + 1 > DEBOUNCE_FRAMES then
         ({ s with
             phase := .ascending
             highestHipHeight := high
             phaseFrameCount := 0 }, ⟨.ascending, false, 0⟩)
       else
         ({ s with
             highestHipHeight := high
             phaseFrameCount := s.phaseFrameCount + 1 }, ⟨.bottom, false, 0⟩)) := by
  obtain ⟨ph, rc, low, high, cnt, st, fs, rst⟩ := s
  simp only at h
  subst h
  by_cases hh : high = (0 : ℝ) <;>
    simp [detectPhaseValid, hh] <;> split_ifs <;> simp_all

lemma dpv_ascending (s : DetectorState) (angle hip now : ℝ) (h : s.phase = .ascending) :
    detectPhaseValid s angle hip now =
      (let high := if s.highestHipHeight = 0 then hip else s.highestHipHeight
       if angle > STANDING_KNEE_THRESHOLD ∧ s.phaseFrameCount + 1 > DEBOUNCE_FRAMES then
         if high - s.lowestHipHeight ≥ MIN_DESCENT_DISTANCE then
           ({ s with
               phase := .standing
               repCount := s.repCount + 1
               highestHipHeight := hip
               phaseFrameCount := 0 }, ⟨.standing, true, now - s.repStartTime⟩)
         else
           ({ s with
               phase := .standing
               highestHipHeight := hip
               phaseFrameCount := 0 }, ⟨.standing, false, 0⟩)
       else
         ({ s with
             highestHipHeight := high
             phaseFrameCount := s.phaseFrameCount + 1 }, ⟨.ascending, false, 0⟩)) := by
  obtain ⟨ph, rc, low, high, cnt, st, fs, rst⟩ := s
  simp only at h
  subst h
  by_cases hh : high = (0 : ℝ) <;>
    simp [detectPhaseValid, hh] <;> split_ifs <;> simp_all

/-- C3: a single `detectPhase` call moves the phase at most one step forward
along the fixed cycle Standing → Descending → Bottom → Ascending → Standing,
for every input pose and every detector state; the returned phase is the
updated phase. -/
theorem C3_phase_moves_one_forward_step (s : DetectorState) (pose : PoseLandmarks)
    (now : ℝ) :
    ((detectPhase s pose now).1.phase = s.phase ∨
      (detectPhase s pose now).1.phase = cycleSucc s.phase) ∧
    (detectPhase s pose now).2.phase = (detectPhase s pose now).1.phase := by
  by_cases hv : isPoseValid pose
  · rw [detectPhase_of_valid s pose now hv]
    rcases hp : s.phase with _ | _ | _ | _
    · rw [dpv_standing s _ _ _ hp]
      split_ifs <;> simp [hp, cycleSucc]
    · rw [dpv_descending s _ _ _ hp]
      simp only []
      split_ifs <;> simp [hp, cycleSucc]
    · rw [dpv_bottom s _ _ _ hp]
      simp only []
      split_ifs <;> simp [hp, cycleSucc]
    · rw [dpv_ascending s _ _ _ hp]
      simp only []
      split_ifs <;> simp [hp, cycleSucc]
  · rw [detectPhase_of_invalid s pose now hv]
    simp

/-- C4: a pose failing the validity gate leaves the detector state unchanged
and returns the current phase with `repCompleted = false` and
`repDuration = 0`, and `analyzeForm` returns score 0 with the single
explanatory feedback entry and all angle/depth/flag fields zeroed. -/
theorem C4_invalid_frame_degrades (s : DetectorState) (pose : PoseLandmarks)
    (now : ℝ) (hv : ¬ isPoseValid pose) :
    detectPhase s pose now = (s, ⟨s.phase, false, 0⟩) ∧
    analyzeForm s pose =
      { kneeAngle := 0
        hipAngle := 0
        torsoAngle := 0
        depth := 0
        kneeAlignment := false
        kneesOverToes := false
        overallScore := 0
        feedback := ["Cannot see full body clearly"] } := by
  refine ⟨detectPhase_of_invalid s pose now hv, ?_⟩
  simp [analyzeForm, hv]

/-- Witness for C4 on a concrete all-absent pose and the reset state. -/
theorem C4_witness :
    detectPhase (resetState 0) poseNone 5 = (resetState 0, ⟨.standing, false, 0⟩) ∧
    analyzeForm (resetState 0) poseNone =
      { kneeAngle := 0
        hipAngle := 0
        torsoAngle := 0
        depth := 0
        kneeAlignment := false
        kneesOverToes := false
        overallScore := 0
        feedback := ["Cannot see full body clearly"] } :=
  C4_invalid_frame_degrades (resetState 0) poseNone 5 not_valid_poseNone

/-! ### Score range claims -/

lemma round_bounds {x : ℝ} (h0 : 0 ≤ x) (h1 : x ≤ 100) :
    0 ≤ round x ∧ round x ≤ 100 := by
  rw [round_eq]
  constructor
  · exact Int.le_floor.mpr (by push_cast; linarith)
  · have hlt : ⌊x + 1 / 2⌋ < 101 := Int.floor_lt.mpr (by push_cast; linarith)
    omega

/-- C5: for arbitrary landmark input, `analyzeForm`'s `overallScore` and
`depth` and `analyzeFormAgainstCoach`'s `overallScore` always lie within
[0, 100]. -/
theorem C5_scores_always_in_range :
    (∀ (s : DetectorState) (pose : PoseLandmarks),
      0 ≤ (analyzeForm s pose).overallScore ∧ (analyzeForm s pose).overallScore ≤ 100 ∧
      0 ≤ (analyzeForm s pose).depth ∧ (analyzeForm s pose).depth ≤ 100) ∧
    (∀ (userPose : PoseLandmarks) (coachPose : BiomechanicalSquatPose)
        (kf : SquatKeyframe),
      0 ≤ (analyzeFormAgainstCoach userPose coachPose kf).overallScore ∧
      (analyzeFormAgainstCoach userPose coachPose kf).overallScore ≤ 100) := by
  constructor
  · intro s pose
    by_cases hv : isPoseValid pose
    · simp only [analyzeForm, hv, if_true]
      refine ⟨le_max_left _ _, ?_, ?_, ?_⟩
      · apply max_le (by norm_num)
        split_ifs <;> norm_num
      · split_ifs
        · exact le_max_left _ _
        · exact le_refl 0
      · split_ifs
        · exact max_le (by norm_num) (min_le_left _ _)
        · norm_num
    · simp [analyzeForm, hv]
  · intro userPose coachPose kf
    simp only [analyzeFormAgainstCoach]
    exact round_bounds (le_max_left _ _) (max_le (by norm_num) (min_le_left _ _))

/-- C10: for every pose passing the validity gate, `analyzeForm` returns at
least 25 (the five deductions sum to at most 75), so the `max 0` clamp never
binds and a returned score of 0 occurs exactly for an invalid pose. -/
theorem C10_valid_score_at_least_25 (s : DetectorState) (pose : PoseLandmarks) :
    (isPoseValid pose → 25 ≤ (analyzeForm s pose).overallScore) ∧
    ((analyzeForm s pose).overallScore = 0 ↔ ¬ isPoseValid pose) := by
  by_cases hv : isPoseValid pose
  · have h25 : 25 ≤ (analyzeForm s pose).overallScore := by
      simp only [analyzeForm, hv, if_true]
      apply le_max_of_le_right
      split_ifs <;> norm_num
    refine ⟨fun _ => h25, ?_⟩
    constructor
    · intro h0
      rw [h0] at h25
      norm_num at h25
    · intro hcontra
      exact absurd hv hcontra
  · refine ⟨fun h => absurd h hv, ?_⟩
    simp [analyzeForm, hv]

/-- Witness for C10: a concrete fully-visible upright pose scores at
least 25. -/
theorem C10_witness :
    25 ≤ (analyzeForm (resetState 0) (poseStraight 0.5)).overallScore :=
  (C10_valid_score_at_least_25 (resetState 0) (poseStraight 0.5)).1
    (valid_poseStraight 0.5)

/-! ### Run lemmas for the phase machine -/

lemma runDetector_nil (s : DetectorState) : runDetector s [] = s := rfl

lemma runDetector_cons (s : DetectorState) (f : Frame) (fs : List Frame) :
    runDetector s (f :: fs) = runDetector (detectPhase s f.pose f.now).1 fs := rfl

lemma runDetector_append (s : DetectorState) (l1 l2 : List Frame) :
    runDetector s (l1 ++ l2) = runDetector (runDetector s l1) l2 := by
  simp [runDetector, List.foldl_append]

/-- Standing, threshold not crossed: any number of identical frames leaves
the phase at Standing, only the frame counter advancing (the high-water mark
is already initialized). -/
lemma standing_stay_full (s : DetectorState) (pose : PoseLandmarks) (now : ℝ)
    (hv : isPoseValid pose) (hph : s.phase = .standing)
    (hangle : ¬ avgKneeAngle pose < STANDING_KNEE_THRESHOLD)
    (hhigh : s.highestHipHeight ≠ 0) :
    ∀ k, runDetector s (List.replicate k ⟨pose, now⟩) =
      { s with phaseFrameCount := s.phaseFrameCount + k } := by
  obtain ⟨ph, rc, low, high, cnt, st, fsc, rst⟩ := s
  simp only at hph hhigh
  subst hph
  intro k
  induction k generalizing cnt with
  | zero => simp [runDetector_nil]
  | succ k ih =>
    have harr : cnt + (k + 1) = (cnt + 1) + k := by omega
    simp only [harr]
    rw [List.replicate_succ, runDetector_cons]
    have hstep : (detectPhase ⟨.standing, rc, low, high, cnt, st, fsc, rst⟩ pose now).1 =
        (⟨.standing, rc, low, high, cnt + 1, st, fsc, rst⟩ : DetectorState) := by
      rw [detectPhase_of_valid _ pose now hv, dpv_standing _ _ _ _ rfl,
        if_neg (by tauto)]
      simp [hhigh]
    rw [hstep]
    exact ih (cnt + 1)

/-- Standing, threshold crossed on every frame: as long as the frame counter
stays at or below `DEBOUNCE_FRAMES`, no transition commits; the phase stays
Standing and the counter advances by one per frame. -/
lemma standing_cross_count (s : DetectorState) (pose : PoseLandmarks) (now : ℝ)
    (hv : isPoseValid pose) (hph : s.phase = .standing)
    (hangle : avgKneeAngle pose < STANDING_KNEE_THRESHOLD) :
    ∀ k, s.phaseFrameCount + k ≤ DEBOUNCE_FRAMES →
      (runDetector s (List.replicate k ⟨pose, now⟩)).phase = .standing ∧
      (runDetector s (List.replicate k ⟨pose, now⟩)).phaseFrameCount =
        s.phaseFrameCount + k := by
  obtain ⟨ph, rc, low, high, cnt, st, fsc, rst⟩ := s
  simp only at hph
  subst hph
  intro k
  induction k generalizing high cnt with
  | zero => intro _; simp [runDetector_nil]
  | succ k ih =>
    intro hk
    simp only at hk
    have harr : cnt + (k + 1) = (cnt + 1) + k := by omega
    simp only [harr]
    rw [List.replicate_succ, runDetector_cons]
    have hcnt : ¬ cnt + 1 > DEBOUNCE_FRAMES := by omega
    have hstep : (detectPhase ⟨.standing, rc, low, high, cnt, st, fsc, rst⟩ pose now).1 =
        (⟨.standing, rc, low, if high = 0 then hipHeightOf pose else high,
          cnt + 1, st, fsc, rst⟩ : DetectorState) := by
      rw [detectPhase_of_valid _ pose now hv, dpv_standing _ _ _ _ rfl,
        if_neg (by tauto)]
    rw [hstep]
    exact ih (if high = 0 then hipHeightOf pose else high) (cnt + 1)
      (show cnt + 1 + k ≤ DEBOUNCE_FRAMES by omega)

/-- The recorded `repStartTime` always equals the `now` of the most recent
Standing → Descending entry: the invariant is preserved by every step. -/
lemma stepDesc_invariant (p : DetectorState × ℝ) (f : Frame)
    (h : p.1.repStartTime = p.2) :
    (stepDesc p f).1.repStartTime = (stepDesc p f).2 := by
  unfold stepDesc
  by_cases hv : isPoseValid f.pose
  · rcases hp : p.1.phase with _ | _ | _ | _
    · rw [detectPhase_of_valid p.1 f.pose f.now hv, dpv_standing p.1 _ _ _ hp]
      split_ifs with hc <;> simp_all
    · rw [detectPhase_of_valid p.1 f.pose f.now hv, dpv_descending p.1 _ _ _ hp]
      simp only []
      split_ifs <;> simp_all
    · rw [detectPhase_of_valid p.1 f.pose f.now hv, dpv_bottom p.1 _ _ _ hp]
      simp only []
      split_ifs <;> simp_all
    · rw [detectPhase_of_valid p.1 f.pose f.now hv, dpv_ascending p.1 _ _ _ hp]
      simp only []
      split_ifs <;> simp_all
  · rw [detectPhase_of_invalid p.1 f.pose f.now hv]
    rcases hp : p.1.phase <;> simp_all

lemma stepDesc_fold (fs : List Frame) :
    ∀ p : DetectorState × ℝ, p.1.repStartTime = p.2 →
      (fs.foldl stepDesc p).1.repStartTime = (fs.foldl stepDesc p).2 := by
  induction fs with
  | nil => intro p h; simpa using h
  | cons f fs ih =>
    intro p h
    rw [List.foldl_cons]
    exact ih _ (stepDesc_invariant p f h)

/-- C1: `repCount` is non-decreasing on every call; it increments by exactly
one, with `repCompleted = true` and `repDuration = now - repStartTime`,
precisely on a valid Ascending → Standing transition whose recorded
hip-height excursion is at least `MIN_DESCENT_DISTANCE`; such a transition
with a smaller excursion returns to Standing without a rep; and along any
run from reset, `repStartTime` is the timestamp of the current cycle's
Descending entry. -/
theorem C1_rep_counting :
    (∀ (s : DetectorState) (pose : PoseLandmarks) (now : ℝ),
      s.repCount ≤ (detectPhase s pose now).1.repCount) ∧
    (∀ (s : DetectorState) (pose : PoseLandmarks) (now : ℝ),
      isPoseValid pose → s.phase = .ascending →
      avgKneeAngle pose > STANDING_KNEE_THRESHOLD →
      s.phaseFrameCount + 1 > DEBOUNCE_FRAMES →
      (if s.highestHipHeight = 0 then hipHeightOf pose else s.highestHipHeight) -
          s.lowestHipHeight ≥ MIN_DESCENT_DISTANCE →
      (detectPhase s pose now).1.repCount = s.repCount + 1 ∧
      (detectPhase s pose now).1.phase = .standing ∧
      (detectPhase s pose now).2.repCompleted = true ∧
      (detectPhase s pose now).2.repDuration = now - s.repStartTime) ∧
    (∀ (s : DetectorState) (pose : PoseLandmarks) (now : ℝ),
      isPoseValid pose → s.phase = .ascending →
      avgKneeAngle pose > STANDING_KNEE_THRESHOLD →
      s.phaseFrameCount + 1 > DEBOUNCE_FRAMES →
      ¬ (if s.highestHipHeight = 0 then hipHeightOf pose else s.highestHipHeight) -
          s.lowestHipHeight ≥ MIN_DESCENT_DISTANCE →
      (detectPhase s pose now).1.repCount = s.repCount ∧
      (detectPhase s pose now).1.phase = .standing ∧
      (detectPhase s pose now).2.repCompleted = false) ∧
    (∀ (s : DetectorState) (pose : PoseLandmarks) (now : ℝ),
      (detectPhase s pose now).1.repCount ≠ s.repCount →
      isPoseValid pose ∧ s.phase = .ascending ∧
      avgKneeAngle pose > STANDING_KNEE_THRESHOLD ∧
      s.phaseFrameCount + 1 > DEBOUNCE_FRAMES ∧
      (if s.highestHipHeight = 0 then hipHeightOf pose else s.highestHipHeight) -
          s.lowestHipHeight ≥ MIN_DESCENT_DISTANCE ∧
      (detectPhase s pose now).1.repCount = s.repCount + 1 ∧
      (detectPhase s pose now).2.repCompleted = true) ∧
    (∀ (t0 : ℝ) (fs : List Frame),
      (fs.foldl stepDesc (resetState t0, 0)).1.repStartTime =
        (fs.foldl stepDesc (resetState t0, 0)).2) := by
  refine ⟨?_, ?_, ?_, ?_, ?_⟩
  · intro s pose now
    by_cases hv : isPoseValid pose
    · rcases hp : s.phase with _ | _ | _ | _
      · rw [detectPhase_of_valid s pose now hv, dpv_standing s _ _ _ hp]
        split_ifs <;> simp
      · rw [detectPhase_of_valid s pose now hv, dpv_descending s _ _ _ hp]
        simp only []
        split_ifs <;> simp
      · rw [detectPhase_of_valid s pose now hv, dpv_bottom s _ _ _ hp]
        simp only []
        split_ifs <;> simp
      · rw [detectPhase_of_valid s pose now hv, dpv_ascending s _ _ _ hp]
        simp only []
        split_ifs <;> simp
    · rw [detectPhase_of_invalid s pose now hv]
  · intro s pose now hv hp hangle hcnt hexc
    rw [detectPhase_of_valid s pose now hv, dpv_ascending s _ _ _ hp]
    rw [if_pos ⟨hangle, hcnt⟩, if_pos hexc]
    simp
  · intro s pose now hv hp hangle hcnt hexc
    rw [detectPhase_of_valid s pose now hv, dpv_ascending s _ _ _ hp]
    rw [if_pos ⟨hangle, hcnt⟩, if_neg hexc]
    simp
  · intro s pose now hne
    by_cases hv : isPoseValid pose
    · rcases hp : s.phase with _ | _ | _ | _
      · rw [detectPhase_of_valid s pose now hv, dpv_standing s _ _ _ hp] at hne ⊢
        split_ifs at hne <;> simp_all
      · rw [detectPhase_of_valid s pose now hv, dpv_descending s _ _ _ hp] at hne ⊢
        simp only [] at hne ⊢
        split_ifs at hne <;> simp_all
      · rw [detectPhase_of_valid s pose now hv, dpv_bottom s _ _ _ hp] at hne ⊢
        simp only [] at hne ⊢
        split_ifs at hne <;> simp_all
      · rw [detectPhase_of_valid s pose now hv, dpv_ascending s _ _ _ hp] at hne ⊢
        simp only [] at hne ⊢
        split_ifs at hne with h1 h2 <;> simp_all
    · rw [detectPhase_of_invalid s pose now hv] at hne
      simp at hne
  · intro t0 fs
    exact stepDesc_fold fs (resetState t0, 0) rfl

/-- Witness for C1: a concrete Ascending state with excursion 0.4 and a
straight (180-degree) pose completes a rep with duration `12 - 3`. -/
theorem C1_witness :
    (detectPhase ⟨.ascending, 0, 0.4, 0.8, 10, 0, [], 3⟩ (poseStraight 0.8) 12).1.repCount =
        0 + 1 ∧
      (detectPhase ⟨.ascending, 0, 0.4, 0.8, 10, 0, [], 3⟩ (poseStraight 0.8) 12).1.phase =
        .standing ∧
      (detectPhase ⟨.ascending, 0, 0.4, 0.8, 10, 0, [], 3⟩ (poseStraight 0.8) 12).2.repCompleted =
        true ∧
      (detectPhase ⟨.ascending, 0, 0.4, 0.8, 10, 0, [], 3⟩ (poseStraight 0.8) 12).2.repDuration =
        12 - 3 := by
  have h := C1_rep_counting.2.1 ⟨.ascending, 0, 0.4, 0.8, 10, 0, [], 3⟩
    (poseStraight 0.8) 12 (valid_poseStraight 0.8) rfl
    (by rw [avgKnee_poseStraight]; norm_num [STANDING_KNEE_THRESHOLD])
    (by norm_num [DEBOUNCE_FRAMES])
    (by rw [if_neg (by norm_num)]; norm_num [MIN_DESCENT_DISTANCE])
  exact h

/-! ### Concrete runs from reset -/

lemma detectPhase_reset_straight (h t : ℝ) :
    (detectPhase (resetState 0) (poseStraight h) t).1 =
      (⟨.standing, 0, 1, h, 1, 0, [], 0⟩ : DetectorState) := by
  rw [detectPhase_of_valid _ _ _ (valid_poseStraight h), dpv_standing _ _ _ _ rfl,
    if_neg (by rw [avgKnee_poseStraight]; norm_num [STANDING_KNEE_THRESHOLD])]
  simp [resetState, hip_poseStraight]

/-- Nine frames of an upright (180-degree) pose at hip height `a` followed by
one bent (90-degree) frame at hip height `b`: the machine transitions to
Descending on the single threshold-crossing frame, with the high-water mark
still holding the first frame's hip height `a`. -/
lemma run_straight9_bent (a b : ℝ) (ha : a ≠ 0) :
    runDetector (resetState 0)
        (List.replicate 9 ⟨poseStraight a, 1⟩ ++ [⟨poseBent b, 2⟩]) =
      (⟨.descending, 0, b, a, 0, 0, [], 2⟩ : DetectorState) := by
  have hrep : List.replicate 9 (⟨poseStraight a, 1⟩ : Frame) =
      ⟨poseStraight a, 1⟩ :: List.replicate 8 ⟨poseStraight a, 1⟩ := rfl
  rw [hrep, List.cons_append, runDetector_cons, detectPhase_reset_straight,
    runDetector_append]
  rw [standing_stay_full ⟨.standing, 0, 1, a, 1, 0, [], 0⟩ (poseStraight a) 1
    (valid_poseStraight a) rfl
    (by rw [avgKnee_poseStraight]; norm_num [STANDING_KNEE_THRESHOLD]) ha 8]
  rw [runDetector_cons, runDetector_nil]
  rw [detectPhase_of_valid _ _ _ (valid_poseBent b), dpv_standing _ _ _ _ rfl,
    if_pos ⟨by rw [avgKnee_poseBent]; norm_num [STANDING_KNEE_THRESHOLD],
      by norm_num [DEBOUNCE_FRAMES]⟩]
  simp [hip_poseBent, ha]

/-- C2 counterexample: from reset, nine frames whose knee angle (180) never
crosses the standing threshold followed by a single crossing frame (90)
commit the Standing → Descending transition on that very first crossing
frame — the threshold held for only one consecutive frame, not more than
`DEBOUNCE_FRAMES`. -/
theorem C2_counterexample :
    (runDetector (resetState 0)
        (List.replicate 9 ⟨poseStraight 0.5, 1⟩ ++ [⟨poseBent 0.5, 2⟩])).phase =
      .descending ∧
    ¬ avgKneeAngle (poseStraight 0.5) < STANDING_KNEE_THRESHOLD ∧
    avgKneeAngle (poseBent 0.5) < STANDING_KNEE_THRESHOLD := by
  refine ⟨?_, ?_, ?_⟩
  · rw [run_straight9_bent 0.5 0.5 (by norm_num)]
  · rw [avgKnee_poseStraight]; norm_num [STANDING_KNEE_THRESHOLD]
  · rw [avgKnee_poseBent]; norm_num [STANDING_KNEE_THRESHOLD]

/-- C2 (amended): a transition never commits on a valid frame unless
`phaseFrameCount` — the number of valid frames since the last transition,
not the number of consecutive threshold-crossing frames — exceeds
`DEBOUNCE_FRAMES` after its increment; from a freshly-transitioned Standing
state, `DEBOUNCE_FRAMES` threshold-crossing frames do not yet transition and
`DEBOUNCE_FRAMES + 1` do. -/
theorem C2_debounce_counts_frames_in_phase :
    (∀ (s : DetectorState) (pose : PoseLandmarks) (now : ℝ),
      (detectPhase s pose now).1.phase ≠ s.phase →
        isPoseValid pose ∧ s.phaseFrameCount + 1 > DEBOUNCE_FRAMES) ∧
    (∀ (s : DetectorState) (pose : PoseLandmarks) (now : ℝ),
      isPoseValid pose → s.phase = .standing → s.phaseFrameCount = 0 →
      avgKneeAngle pose < STANDING_KNEE_THRESHOLD →
      (runDetector s (List.replicate DEBOUNCE_FRAMES ⟨pose, now⟩)).phase =
          .standing ∧
      (runDetector s (List.replicate (DEBOUNCE_FRAMES + 1) ⟨pose, now⟩)).phase =
          .descending) := by
  constructor
  · intro s pose now hne
    by_cases hv : isPoseValid pose
    · refine ⟨hv, ?_⟩
      rcases hp : s.phase with _ | _ | _ | _
      · rw [detectPhase_of_valid s pose now hv, dpv_standing s _ _ _ hp] at hne
        split_ifs at hne <;> simp_all
      · rw [detectPhase_of_valid s pose now hv, dpv_descending s _ _ _ hp] at hne
        simp only [] at hne
        split_ifs at hne <;> simp_all
      · rw [detectPhase_of_valid s pose now hv, dpv_bottom s _ _ _ hp] at hne
        simp only [] at hne
        split_ifs at hne <;> simp_all
      · rw [detectPhase_of_valid s pose now hv, dpv_ascending s _ _ _ hp] at hne
        simp only [] at hne
        split_ifs at hne <;> simp_all
    · rw [detectPhase_of_invalid s pose now hv] at hne
      simp at hne
  · intro s pose now hv hp hcnt hangle
    have h8 := standing_cross_count s pose now hv hp hangle DEBOUNCE_FRAMES
      (by omega)
    constructor
    · exact h8.1
    · rw [List.replicate_succ', runDetector_append, runDetector_cons, runDetector_nil]
      rw [detectPhase_of_valid _ _ _ hv, dpv_standing _ _ _ _ h8.1,
        if_pos ⟨hangle, by rw [h8.2, hcnt]; norm_num [DEBOUNCE_FRAMES]⟩]

/-- Witness for the amended C2: from reset with a concrete 90-degree pose,
8 frames stay Standing and the 9th transitions to Descending. -/
theorem C2_witness :
    (runDetector (resetState 0)
        (List.replicate DEBOUNCE_FRAMES ⟨poseBent 0.5, 1⟩)).phase = .standing ∧
    (runDetector (resetState 0)
        (List.replicate (DEBOUNCE_FRAMES + 1) ⟨poseBent 0.5, 1⟩)).phase =
      .descending :=
  C2_debounce_counts_frames_in_phase.2 (resetState 0) (poseBent 0.5) 1
    (valid_poseBent 0.5) rfl rfl
    (by rw [avgKnee_poseBent]; norm_num [STANDING_KNEE_THRESHOLD])

/-- C6 counterexample: the high-water mark is not captured at the
Standing → Descending transition.  From reset, the first valid frame (hip
height 0.3) fixes `highestHipHeight = 0.3`; the later frame that actually
commits the Standing → Descending transition has hip height 0.5, yet the
stored `highestHipHeight` remains 0.3. -/
theorem C6_counterexample :
    (runDetector (resetState 0)
        (List.replicate 9 ⟨poseStraight 0.3, 1⟩ ++ [⟨poseBent 0.5, 2⟩])).phase =
      .descending ∧
    (runDetector (resetState 0)
        (List.replicate 9 ⟨poseStraight 0.3, 1⟩ ++ [⟨poseBent 0.5, 2⟩])).highestHipHeight =
      0.3 ∧
    hipHeightOf (poseBent 0.5) = 0.5 ∧ (0.3 : ℝ) ≠ 0.5 := by
  rw [run_straight9_bent 0.3 0.5 (by norm_num)]
  refine ⟨rfl, rfl, hip_poseBent 0.5, by norm_num⟩

/-- C6 (amended): while Descending, `lowestHipHeight` ratchets downward as
the running minimum of observed hip heights; `highestHipHeight` is held
fixed during a cycle, but it is captured at the first valid frame after
reset (when it is 0) and re-captured at every Ascending → Standing exit
(completed or not) — not at the Standing → Descending transition. -/
theorem C6_hip_extrema (s : DetectorState) (pose : PoseLandmarks) (now : ℝ)
    (hv : isPoseValid pose) :
    (s.phase = .descending →
      (detectPhase s pose now).1.lowestHipHeight =
        min s.lowestHipHeight (hipHeightOf pose)) ∧
    (s.highestHipHeight ≠ 0 →
      ¬ (s.phase = .ascending ∧ avgKneeAngle pose > STANDING_KNEE_THRESHOLD ∧
          s.phaseFrameCount + 1 > DEBOUNCE_FRAMES) →
      (detectPhase s pose now).1.highestHipHeight = s.highestHipHeight) ∧
    (s.phase = .ascending → avgKneeAngle pose > STANDING_KNEE_THRESHOLD →
      s.phaseFrameCount + 1 > DEBOUNCE_FRAMES →
      (detectPhase s pose now).1.highestHipHeight = hipHeightOf pose) ∧
    (s.highestHipHeight = 0 →
      (detectPhase s pose now).1.highestHipHeight = hipHeightOf pose) := by
  refine ⟨?_, ?_, ?_, ?_⟩
  · intro hp
    rw [detectPhase_of_valid s pose now hv, dpv_descending s _ _ _ hp]
    simp only []
    rcases lt_or_le (hipHeightOf pose) s.lowestHipHeight with hlt | hle
    · rw [min_eq_right hlt.le]
      simp only [if_pos hlt]
      split_ifs <;> simp
    · rw [min_eq_left hle]
      simp only [if_neg (not_lt.mpr hle)]
      split_ifs <;> simp
  · intro hhigh hnot
    rcases hp : s.phase with _ | _ | _ | _
    · rw [detectPhase_of_valid s pose now hv, dpv_standing s _ _ _ hp]
      simp only [if_neg hhigh]
      split_ifs <;> simp
    · rw [detectPhase_of_valid s pose now hv, dpv_descending s _ _ _ hp]
      simp only [if_neg hhigh]
      split_ifs <;> simp
    · rw [detectPhase_of_valid s pose now hv, dpv_bottom s _ _ _ hp]
      simp only [if_neg hhigh]
      split_ifs <;> simp
    · rw [detectPhase_of_valid s pose now hv, dpv_ascending s _ _ _ hp]
      simp only [if_neg hhigh]
      have hcond : ¬ (avgKneeAngle pose > STANDING_KNEE_THRESHOLD ∧
          s.phaseFrameCount + 1 > DEBOUNCE_FRAMES) := by
        intro hc
        exact hnot ⟨hp, hc.1, hc.2⟩
      rw [if_neg hcond]
  · intro hp hangle hcnt
    rw [detectPhase_of_valid s pose now hv, dpv_ascending s _ _ _ hp]
    simp only []
    rw [if_pos ⟨hangle, hcnt⟩]
    split_ifs <;> simp
  · intro hhigh
    rcases hp : s.phase with _ | _ | _ | _
    · rw [detectPhase_of_valid s pose now hv, dpv_standing s _ _ _ hp]
      simp only [if_pos hhigh]
      split_ifs <;> simp
    · rw [detectPhase_of_valid s pose now hv, dpv_descending s _ _ _ hp]
      simp only [if_pos hhigh]
      split_ifs <;> simp
    · rw [detectPhase_of_valid s pose now hv, dpv_bottom s _ _ _ hp]
      simp only [if_pos hhigh]
      split_ifs <;> simp
    · rw [detectPhase_of_valid s pose now hv, dpv_ascending s _ _ _ hp]
      simp only [if_pos hhigh]
      split_ifs <;> simp

/-- Witness for the amended C6: a concrete Descending state ratchets its
low-water mark down to the observed hip height 0.5. -/
theorem C6_witness :
    (detectPhase ⟨.descending, 0, 0.6, 0.8, 3, 0, [], 2⟩ (poseDeep 0.5) 4).1.lowestHipHeight =
      min 0.6 0.5 := by
  have h := (C6_hip_extrema ⟨.descending, 0, 0.6, 0.8, 3, 0, [], 2⟩ (poseDeep 0.5) 4
    (valid_poseDeep 0.5)).1 rfl
  rw [h, hip_poseDeep]

/-! ### Session aggregator -/

/-- C8 counterexample: on scores `[0, 0, 1]` the returned `consistency` is
the integer 99 (the code rounds), while `max 0 (100 - 2 × stddev)` — the
value the claim states, with the variance of `[0, 0, 1]` around its mean
`(0 + 0 + 1) / 3` written out — is the irrational `100 - 2·√(2/9)` ≠ 99. -/
theorem C8_counterexample :
    (((calculateMovementQuality [0, 0, 1] []).consistency : ℝ)) ≠
      max 0 (100 - Real.sqrt ((((0 : ℝ) - (0 + 0 + 1) / 3) ^ 2 +
        ((0 : ℝ) - (0 + 0 + 1) / 3) ^ 2 +
        ((1 : ℝ) - (0 + 0 + 1) / 3) ^ 2) / 3) * 2) := by
  have harg : ((((0 : ℝ) - (0 + 0 + 1) / 3) ^ 2 + ((0 : ℝ) - (0 + 0 + 1) / 3) ^ 2 +
      ((1 : ℝ) - (0 + 0 + 1) / 3) ^ 2) / 3) = 2 / 9 := by norm_num
  have hs1 : Real.sqrt (2 / 9) < 0.48 := by
    rw [Real.sqrt_lt' (by norm_num)]
    norm_num
  have hs0 : (0.4 : ℝ) < Real.sqrt (2 / 9) := by
    rw [Real.lt_sqrt (by norm_num)]
    norm_num
  have hmax : max 0 (100 - Real.sqrt (2 / 9) * 2) = 100 - Real.sqrt (2 / 9) * 2 :=
    max_eq_right (by linarith)
  have hcons : (calculateMovementQuality [0, 0, 1] []).consistency =
      round (max 0 (100 - Real.sqrt (2 / 9) * 2)) := by
    simp only [calculateMovementQuality]
    rw [if_neg (show ¬ ([0, 0, 1] : List ℝ) = [] by simp)]
    norm_num [listSum]
  have hround : round (max 0 (100 - Real.sqrt (2 / 9) * 2)) = 99 := by
    rw [hmax, round_eq]
    have : ⌊100 - Real.sqrt (2 / 9) * 2 + 1 / 2⌋ = (99 : ℤ) := by
      rw [Int.floor_eq_iff]
      constructor
      · push_cast
        linarith
      · push_cast
        linarith
    exact this
  rw [harg, hmax, hcons, hround]
  intro heq
  have : Real.sqrt (2 / 9) = 1 / 2 := by
    push_cast at heq
    linarith
  rw [this] at hs1
  norm_num at hs1

/-- C8 (amended): `calculateMovementQuality` returns the rounded mean of the
scores, the rounded value of `max 0 (100 - 2 × stddev)`, the tempo
classification by mean rep duration (below 3000 ms too fast, above 7000 ms
too slow, otherwise optimal, also optimal when no durations), and the
defined zero/optimal result on an empty scores list. -/
theorem C8_movement_quality (formScores repDurations : List ℝ) :
    (formScores = [] →
      calculateMovementQuality formScores repDurations =
        ⟨0, 0, .optimal, "Keep practicing to establish baseline"⟩) ∧
    (formScores ≠ [] →
      (calculateMovementQuality formScores repDurations).averageForm =
        round (listSum formScores / formScores.length) ∧
      (calculateMovementQuality formScores repDurations).consistency =
        round (max 0 (100 -
          Real.sqrt ((formScores.foldl
              (fun sum score =>
                sum + (score - listSum formScores / formScores.length) ^ 2) 0) /
            formScores.length) * 2)) ∧
      (repDurations = [] →
        (calculateMovementQuality formScores repDurations).tempo = .optimal) ∧
      (repDurations ≠ [] → listSum repDurations / repDurations.length < 3000 →
        (calculateMovementQuality formScores repDurations).tempo = .too_fast) ∧
      (repDurations ≠ [] → listSum repDurations / repDurations.length > 7000 →
        (calculateMovementQuality formScores repDurations).tempo = .too_slow) ∧
      (repDurations ≠ [] → ¬ listSum repDurations / repDurations.length < 3000 →
        ¬ listSum repDurations / repDurations.length > 7000 →
        (calculateMovementQuality formScores repDurations).tempo = .optimal)) := by
  constructor
  · intro h
    simp [calculateMovementQuality, h]
  · intro h
    refine ⟨?_, ?_, ?_, ?_, ?_, ?_⟩
    · simp [calculateMovementQuality, h]
    · simp [calculateMovementQuality, h]
    · intro hd
      simp [calculateMovementQuality, h, hd]
    · intro hd h3
      simp [calculateMovementQuality, h, hd, h3]
    · intro hd h7
      have h3 : ¬ listSum repDurations / repDurations.length < 3000 := by linarith
      simp [calculateMovementQuality, h, hd, h3, h7]
    · intro hd h3 h7
      simp [calculateMovementQuality, h, hd, h3, h7]

/-- Witness for the amended C8 on concrete scores `[80, 90]` and a single
4000 ms rep duration. -/
theorem C8_witness :
    (calculateMovementQuality [80, 90] [4000]).averageForm =
      round (listSum [80, 90] / (([80, 90] : List ℝ).length : ℝ)) ∧
    (calculateMovementQuality [80, 90] [4000]).tempo = .optimal := by
  have h := (C8_movement_quality [80, 90] [4000]).2 (by simp)
  refine ⟨h.1, h.2.2.2.2.2 (by simp) ?_ ?_⟩
  · norm_num [listSum]
  · norm_num [listSum]

/-! ### Evaluating `calculateAngle` on the synthesized coach poses

The synthesized squat poses place hip, knee and ankle nearly vertically in
the x-y plane (forward travel goes into z, which `calculateAngle` ignores),
so every angle evaluation falls into one of two sign patterns. -/

lemma calculateAngle_some (a b c : Landmark) :
    calculateAngle (some a) (some b) (some c) =
      (if |(atan2 (c.y - b.y) (c.x - b.x) - atan2 (a.y - b.y) (a.x - b.x)) * 180 / π| > 180
       then 360 - |(atan2 (c.y - b.y) (c.x - b.x) - atan2 (a.y - b.y) (a.x - b.x)) * 180 / π|
       else |(atan2 (c.y - b.y) (c.x - b.x) - atan2 (a.y - b.y) (a.x - b.x)) * 180 / π|) :=
  rfl

lemma S_lt (u v : ℝ) : (arctan u + arctan v) * 180 / π < 180 := by
  have hpi := Real.pi_pos
  have h1 := Real.arctan_lt_pi_div_two u
  have h2 := Real.arctan_lt_pi_div_two v
  rw [div_lt_iff hpi]
  linarith

lemma S_pos {u v : ℝ} (hu : 0 < u) (hv : 0 < v) :
    0 < (arctan u + arctan v) * 180 / π := by
  have hpi := Real.pi_pos
  have h1 := arctan_pos_of hu
  have h2 := arctan_pos_of hv
  positivity

lemma S_gt {u v B : ℝ} (hu : 0 < u) (hv : 0 < v)
    (h : 180 * (1 / u + 1 / v) < (180 - B) * π) :
    B < (arctan u + arctan v) * 180 / π := by
  have hpi := Real.pi_pos
  have h1 : π / 2 - 1 / u < arctan u := by
    have := lt_arctan_of_pos hu
    rwa [← one_div] at this
  have h2 : π / 2 - 1 / v < arctan v := by
    have := lt_arctan_of_pos hv
    rwa [← one_div] at this
  rw [lt_div_iff hpi]
  nlinarith [h1, h2]

/-- Vertex pattern with `a - b = (p, -q)` and `c - b = (r, s)`, all of
`p q r s` positive: the angle is `arctan (s/r) + arctan (q/p)` in degrees. -/
lemma calcAngle_A (a b c : Landmark) (p q r s : ℝ)
    (hp : 0 < p) (hq : 0 < q) (hr : 0 < r) (hs : 0 < s)
    (eax : a.x - b.x = p) (eay : a.y - b.y = -q)
    (ecx : c.x - b.x = r) (ecy : c.y - b.y = s) :
    calculateAngle (some a) (some b) (some c) =
      (arctan (s / r) + arctan (q / p)) * 180 / π := by
  have hpi := Real.pi_pos
  rw [calculateAngle_some, eax, eay, ecx, ecy, atan2_pos_x hr, atan2_pos_x hp,
    show -q / p = -(q / p) from neg_div p q, Real.arctan_neg, sub_neg_eq_add]
  have hpos : (0 : ℝ) < (arctan (s / r) + arctan (q / p)) * 180 / π :=
    S_pos (div_pos hs hr) (div_pos hq hp)
  rw [abs_of_pos hpos, if_neg (not_lt.mpr (S_lt (s / r) (q / p)).le)]

/-- Mirror pattern with `a - b = (-p, -q)` and `c - b = (-r, s)`, all of
`p q r s` positive: same angle value as `calcAngle_A` after the 360-degree
fold. -/
lemma calcAngle_B (a b c : Landmark) (p q r s : ℝ)
    (hp : 0 < p) (hq : 0 < q) (hr : 0 < r) (hs : 0 < s)
    (eax : a.x - b.x = -p) (eay : a.y - b.y = -q)
    (ecx : c.x - b.x = -r) (ecy : c.y - b.y = s) :
    calculateAngle (some a) (some b) (some c) =
      (arctan (s / r) + arctan (q / p)) * 180 / π := by
  have hpi := Real.pi_pos
  rw [calculateAngle_some, eax, eay, ecx, ecy,
    atan2_neg_x_nonneg (by linarith) hs.le, atan2_neg_x_neg (by linarith) (by linarith),
    show s / -r = -(s / r) from div_neg s, show -q / -p = q / p from neg_div_neg_eq q p,
    Real.arctan_neg]
  have hval : (-arctan (s / r) + π - (arctan (q / p) - π)) * 180 / π =
      360 - (arctan (s / r) + arctan (q / p)) * 180 / π := by
    field_simp
    ring
  rw [hval]
  have hSlt := S_lt (s / r) (q / p)
  have hSpos := S_pos (div_pos hs hr) (div_pos hq hp)
  rw [abs_of_pos (by linarith), if_pos (by linarith)]
  ring

lemma torso_left (sh hp : Landmark) (p q : ℝ) (hpp : 0 < p) (hq : 0 < q)
    (ex : hp.x - sh.x = p) (ey : hp.y - sh.y = q) :
    calculateTorsoAngle (some sh) (some hp) = 90 - arctan (q / p) * 180 / π := by
  have hpi := Real.pi_pos
  have hta : arctan (q / p) * 180 / π < 90 := by
    have := Real.arctan_lt_pi_div_two (q / p)
    rw [div_lt_iff hpi]
    linarith
  have htapos : 0 < arctan (q / p) * 180 / π := by
    have := arctan_pos_of (div_pos hq hpp)
    positivity
  show abs (90 - |atan2 (hp.y - sh.y) (hp.x - sh.x) * 180 / π|) = _
  rw [ex, ey, atan2_pos_x hpp, abs_of_pos htapos, abs_of_pos (by linarith)]

lemma torso_right (sh hp : Landmark) (p q : ℝ) (hpp : 0 < p) (hq : 0 < q)
    (ex : hp.x - sh.x = -p) (ey : hp.y - sh.y = q) :
    calculateTorsoAngle (some sh) (some hp) = 90 - arctan (q / p) * 180 / π := by
  have hpi := Real.pi_pos
  have hta : arctan (q / p) * 180 / π < 90 := by
    have := Real.arctan_lt_pi_div_two (q / p)
    rw [div_lt_iff hpi]
    linarith
  have htapos : 0 < arctan (q / p) * 180 / π := by
    have := arctan_pos_of (div_pos hq hpp)
    positivity
  show abs (90 - |atan2 (hp.y - sh.y) (hp.x - sh.x) * 180 / π|) = _
  rw [ex, ey, atan2_neg_x_nonneg (by linarith) hq.le,
    show q / -p = -(q / p) from div_neg q, Real.arctan_neg]
  have hval : (-arctan (q / p) + π) * 180 / π = 180 - arctan (q / p) * 180 / π := by
    field_simp
    ring
  rw [hval,
    abs_of_pos (show (0 : ℝ) < 180 - arctan (q / p) * 180 / π by linarith),
    show (90 : ℝ) - (180 - arctan (q / p) * 180 / π) =
      -(90 - arctan (q / p) * 180 / π) by ring,
    abs_neg, abs_of_pos (by linarith)]

lemma TA_gt {u B : ℝ} (hu : 0 < u) (h : 180 * (1 / u) < (90 - B) * π) :
    B < arctan u * 180 / π := by
  have hpi := Real.pi_pos
  have h1 : π / 2 - 1 / u < arctan u := by
    have := lt_arctan_of_pos hu
    rwa [← one_div] at this
  rw [lt_div_iff hpi]
  nlinarith [h1]

lemma TA_lt (u : ℝ) : arctan u * 180 / π < 90 := by
  have hpi := Real.pi_pos
  have := Real.arctan_lt_pi_div_two u
  rw [div_lt_iff hpi]
  linarith

/-- In-plane coordinates of the eight scored joints of the pose synthesized
for the Standing keyframe (depth factor 0). -/
lemma gen_standing_coords :
    (generateBiomechanicalSquatPose kfStanding).LEFT_SHOULDER.x = 0.4 ∧
    (generateBiomechanicalSquatPose kfStanding).LEFT_SHOULDER.y = 0.05 ∧
    (generateBiomechanicalSquatPose kfStanding).RIGHT_SHOULDER.x = 0.6 ∧
    (generateBiomechanicalSquatPose kfStanding).RIGHT_SHOULDER.y = 0.05 ∧
    (generateBiomechanicalSquatPose kfStanding).LEFT_HIP.x = 0.405 ∧
    (generateBiomechanicalSquatPose kfStanding).LEFT_HIP.y = 0.35 ∧
    (generateBiomechanicalSquatPose kfStanding).RIGHT_HIP.x = 0.595 ∧
    (generateBiomechanicalSquatPose kfStanding).RIGHT_HIP.y = 0.35 ∧
    (generateBiomechanicalSquatPose kfStanding).LEFT_KNEE.x = 0.4 ∧
    (generateBiomechanicalSquatPose kfStanding).LEFT_KNEE.y = 0.6 ∧
    (generateBiomechanicalSquatPose kfStanding).RIGHT_KNEE.x = 0.6 ∧
    (generateBiomechanicalSquatPose kfStanding).RIGHT_KNEE.y = 0.6 ∧
    (generateBiomechanicalSquatPose kfStanding).LEFT_ANKLE.x = 0.415 ∧
    (generateBiomechanicalSquatPose kfStanding).LEFT_ANKLE.y = 0.85 ∧
    (generateBiomechanicalSquatPose kfStanding).RIGHT_ANKLE.x = 0.585 ∧
    (generateBiomechanicalSquatPose kfStanding).RIGHT_ANKLE.y = 0.85 := by
  norm_num [generateBiomechanicalSquatPose, createLandmark, kfStanding]

/-- In-plane coordinates of the eight scored joints of the pose synthesized
for the Bottom Position keyframe (depth factor 1). -/
lemma gen_bottom_coords :
    (generateBiomechanicalSquatPose kfBottom).LEFT_SHOULDER.x = 0.4 ∧
    (generateBiomechanicalSquatPose kfBottom).LEFT_SHOULDER.y = 0.4 ∧
    (generateBiomechanicalSquatPose kfBottom).RIGHT_SHOULDER.x = 0.6 ∧
    (generateBiomechanicalSquatPose kfBottom).RIGHT_SHOULDER.y = 0.4 ∧
    (generateBiomechanicalSquatPose kfBottom).LEFT_HIP.x = 0.405 ∧
    (generateBiomechanicalSquatPose kfBottom).LEFT_HIP.y = 0.7 ∧
    (generateBiomechanicalSquatPose kfBottom).RIGHT_HIP.x = 0.595 ∧
    (generateBiomechanicalSquatPose kfBottom).RIGHT_HIP.y = 0.7 ∧
    (generateBiomechanicalSquatPose kfBottom).LEFT_KNEE.x = 0.4 ∧
    (generateBiomechanicalSquatPose kfBottom).LEFT_KNEE.y = 0.75 ∧
    (generateBiomechanicalSquatPose kfBottom).RIGHT_KNEE.x = 0.6 ∧
    (generateBiomechanicalSquatPose kfBottom).RIGHT_KNEE.y = 0.75 ∧
    (generateBiomechanicalSquatPose kfBottom).LEFT_ANKLE.x = 0.415 ∧
    (generateBiomechanicalSquatPose kfBottom).LEFT_ANKLE.y = 0.85 ∧
    (generateBiomechanicalSquatPose kfBottom).RIGHT_ANKLE.x = 0.585 ∧
    (generateBiomechanicalSquatPose kfBottom).RIGHT_ANKLE.y = 0.85 := by
  norm_num [generateBiomechanicalSquatPose, createLandmark, kfBottom]

/-- C7 counterexample: feeding the pose synthesized for the Bottom Position
keyframe back into the advanced scorer with that same keyframe as target
yields 65, not 100: the synthesized pose's in-plane knee and hip angles
(about 166 and 173 degrees — the forward travel goes into the ignored z
coordinate) deviate from the keyframe targets of 110 and 95 by more than
the critical margins, and the torso-angle differs from its 45-degree target
by more than 15. -/
theorem C7_counterexample :
    (analyzeFormAgainstCoach (toUserPose (generateBiomechanicalSquatPose kfBottom))
        (generateBiomechanicalSquatPose kfBottom) kfBottom).overallScore = 65 ∧
    kfBottom ∈ SQUAT_KEYFRAMES ∧ (65 : ℤ) ≠ 100 := by
  obtain ⟨lsx, lsy, rsx, rsy, lhx, lhy, rhx, rhy, lkx, lky, rkx, rky,
    laxx, layy, raxx, rayy⟩ := gen_bottom_coords
  refine ⟨?_, by simp [SQUAT_KEYFRAMES], by norm_num⟩
  have hKL := calcAngle_A (generateBiomechanicalSquatPose kfBottom).LEFT_HIP
    (generateBiomechanicalSquatPose kfBottom).LEFT_KNEE
    (generateBiomechanicalSquatPose kfBottom).LEFT_ANKLE
    0.005 0.05 0.015 0.1 (by norm_num) (by norm_num) (by norm_num) (by norm_num)
    (by rw [lhx, lkx]; norm_num) (by rw [lhy, lky]; norm_num)
    (by rw [laxx, lkx]; norm_num) (by rw [layy, lky]; norm_num)
  have hKR := calcAngle_B (generateBiomechanicalSquatPose kfBottom).RIGHT_HIP
    (generateBiomechanicalSquatPose kfBottom).RIGHT_KNEE
    (generateBiomechanicalSquatPose kfBottom).RIGHT_ANKLE
    0.005 0.05 0.015 0.1 (by norm_num) (by norm_num) (by norm_num) (by norm_num)
    (by rw [rhx, rkx]; norm_num) (by rw [rhy, rky]; norm_num)
    (by rw [raxx, rkx]; norm_num) (by rw [rayy, rky]; norm_num)
  have hHL := calcAngle_B (generateBiomechanicalSquatPose kfBottom).LEFT_SHOULDER
    (generateBiomechanicalSquatPose kfBottom).LEFT_HIP
    (generateBiomechanicalSquatPose kfBottom).LEFT_KNEE
    0.005 0.3 0.005 0.05 (by norm_num) (by norm_num) (by norm_num) (by norm_num)
    (by rw [lsx, lhx]; norm_num) (by rw [lsy, lhy]; norm_num)
    (by rw [lkx, lhx]; norm_num) (by rw [lky, lhy]; norm_num)
  have hHR := calcAngle_A (generateBiomechanicalSquatPose kfBottom).RIGHT_SHOULDER
    (generateBiomechanicalSquatPose kfBottom).RIGHT_HIP
    (generateBiomechanicalSquatPose kfBottom).RIGHT_KNEE
    0.005 0.3 0.005 0.05 (by norm_num) (by norm_num) (by norm_num) (by norm_num)
    (by rw [rsx, rhx]; norm_num) (by rw [rsy, rhy]; norm_num)
    (by rw [rkx, rhx]; norm_num) (by rw [rky, rhy]; norm_num)
  have hTL := torso_left (generateBiomechanicalSquatPose kfBottom).LEFT_SHOULDER
    (generateBiomechanicalSquatPose kfBottom).LEFT_HIP
    0.005 0.3 (by norm_num) (by norm_num)
    (by rw [lsx, lhx]; norm_num) (by rw [lsy, lhy]; norm_num)
  have hTR := torso_right (generateBiomechanicalSquatPose kfBottom).RIGHT_SHOULDER
    (generateBiomechanicalSquatPose kfBottom).RIGHT_HIP
    0.005 0.3 (by norm_num) (by norm_num)
    (by rw [rsx, rhx]; norm_num) (by rw [rsy, rhy]; norm_num)
  have hpi32 := Real.pi_gt_3141592
  have hSK1 : (130 : ℝ) < (arctan (0.1 / 0.015) + arctan (0.05 / 0.005)) * 180 / π := by
    apply S_gt (by norm_num) (by norm_num)
    norm_num
    linarith
  have hSH1 : (115 : ℝ) < (arctan (0.05 / 0.005) + arctan (0.3 / 0.005)) * 180 / π := by
    apply S_gt (by norm_num) (by norm_num)
    norm_num
    linarith
  have hTA1 : (89 : ℝ) < arctan (0.3 / 0.005) * 180 / π := by
    apply TA_gt (by norm_num)
    norm_num
    linarith
  have hTA2 := TA_lt (0.3 / 0.005 : ℝ)
  simp only [analyzeFormAgainstCoach, toUserPose, calculateKneeAngle, calculateHipAngle,
    calculateAngleDifference, getLm, Option.getD_some,
    show kfBottom.kneeAngle = 110 by norm_num [kfBottom],
    show kfBottom.hipAngle = 95 by norm_num [kfBottom],
    show kfBottom.torsoAngle = 45 by norm_num [kfBottom],
    show kfBottom.progress = 0.5 by norm_num [kfBottom]]
  rw [hKL, hKR, hHL, hHR, hTL, hTR]
  simp only [lhx, lhy, rhx, rhy, lkx, lky, rkx, rky, laxx, raxx]
  simp only [add_self_div_two]
  rw [if_pos (show (20 : ℝ) <
      |(arctan (0.1 / 0.015) + arctan (0.05 / 0.005)) * 180 / π - 110| from
      lt_of_lt_of_le (by linarith) (le_abs_self _))]
  rw [if_pos (show (20 : ℝ) <
      |(arctan (0.05 / 0.005) + arctan (0.3 / 0.005)) * 180 / π - 95| from
      lt_of_lt_of_le (by linarith) (le_abs_self _))]
  rw [if_neg (show ¬ (60 : ℝ) < 90 - arctan (0.3 / 0.005) * 180 / π from
      not_lt.mpr (by linarith))]
  rw [if_pos (show (15 : ℝ) < |90 - arctan (0.3 / 0.005) * 180 / π - 45| from
      lt_abs.mpr (Or.inr (by linarith)))]
  rw [if_neg (show ¬ (((0.5 : ℝ) > 0.4 ∧ (0.5 : ℝ) < 0.6) ∧
      ¬ (0.7 : ℝ) < 0.75) by norm_num)]
  rw [show |(0.4 : ℝ) - 0.6| = 0.2 by rw [abs_of_neg (by norm_num)]; norm_num,
    show |(0.415 : ℝ) - 0.585| = 0.17 by rw [abs_of_neg (by norm_num)]; norm_num]
  rw [if_neg (show ¬ (0.2 : ℝ) < 0.17 * 0.8 by norm_num)]
  rw [if_neg (show ¬ ((0.4 : ℝ) > 0.415 + 0.05 ∨ (0.6 : ℝ) < 0.585 - 0.05) by
      rintro (h | h) <;> norm_num at h)]
  rw [show ((0.405 : ℝ) + 0.595) / 2 - (0.415 + 0.585) / 2 = 0 by norm_num]
  rw [abs_zero, if_pos (show (0 : ℝ) < 0.05 by norm_num)]
  rw [if_neg (show ¬ WeightDistribution.centered ≠ WeightDistribution.centered by simp)]
  rw [show (100 : ℝ) - 15 - 12 - 8 - 0 - 0 - 0 - 0 = 65 by norm_num]
  rw [min_eq_right (by norm_num : (65 : ℝ) ≤ 100),
    max_eq_right (by norm_num : (0 : ℝ) ≤ 65)]
  rw [show (65 : ℝ) = ((65 : ℤ) : ℝ) by norm_num, round_intCast]

/-- C7 (amended): the round-trip self-consistency holds at the Standing
keyframe — the synthesized standing pose scored against its own keyframe
yields exactly 100 — but not at every keyframe (the Bottom Position keyframe
yields 65). -/
theorem C7_roundtrip_standing (kf : SquatKeyframe) (hkf : kf = kfStanding) :
    (analyzeFormAgainstCoach (toUserPose (generateBiomechanicalSquatPose kf))
        (generateBiomechanicalSquatPose kf) kf).overallScore = 100 ∧
    kf ∈ SQUAT_KEYFRAMES := by
  subst hkf
  obtain ⟨lsx, lsy, rsx, rsy, lhx, lhy, rhx, rhy, lkx, lky, rkx, rky,
    laxx, layy, raxx, rayy⟩ := gen_standing_coords
  refine ⟨?_, by simp [SQUAT_KEYFRAMES]⟩
  have hKL := calcAngle_A (generateBiomechanicalSquatPose kfStanding).LEFT_HIP
    (generateBiomechanicalSquatPose kfStanding).LEFT_KNEE
    (generateBiomechanicalSquatPose kfStanding).LEFT_ANKLE
    0.005 0.25 0.015 0.25 (by norm_num) (by norm_num) (by norm_num) (by norm_num)
    (by rw [lhx, lkx]; norm_num) (by rw [lhy, lky]; norm_num)
    (by rw [laxx, lkx]; norm_num) (by rw [layy, lky]; norm_num)
  have hKR := calcAngle_B (generateBiomechanicalSquatPose kfStanding).RIGHT_HIP
    (generateBiomechanicalSquatPose kfStanding).RIGHT_KNEE
    (generateBiomechanicalSquatPose kfStanding).RIGHT_ANKLE
    0.005 0.25 0.015 0.25 (by norm_num) (by norm_num) (by norm_num) (by norm_num)
    (by rw [rhx, rkx]; norm_num) (by rw [rhy, rky]; norm_num)
    (by rw [raxx, rkx]; norm_num) (by rw [rayy, rky]; norm_num)
  have hHL := calcAngle_B (generateBiomechanicalSquatPose kfStanding).LEFT_SHOULDER
    (generateBiomechanicalSquatPose kfStanding).LEFT_HIP
    (generateBiomechanicalSquatPose kfStanding).LEFT_KNEE
    0.005 0.3 0.005 0.25 (by norm_num) (by norm_num) (by norm_num) (by norm_num)
    (by rw [lsx, lhx]; norm_num) (by rw [lsy, lhy]; norm_num)
    (by rw [lkx, lhx]; norm_num) (by rw [lky, lhy]; norm_num)
  have hHR := calcAngle_A (generateBiomechanicalSquatPose kfStanding).RIGHT_SHOULDER
    (generateBiomechanicalSquatPose kfStanding).RIGHT_HIP
    (generateBiomechanicalSquatPose kfStanding).RIGHT_KNEE
    0.005 0.3 0.005 0.25 (by norm_num) (by norm_num) (by norm_num) (by norm_num)
    (by rw [rsx, rhx]; norm_num) (by rw [rsy, rhy]; norm_num)
    (by rw [rkx, rhx]; norm_num) (by rw [rky, rhy]; norm_num)
  have hTL := torso_left (generateBiomechanicalSquatPose kfStanding).LEFT_SHOULDER
    (generateBiomechanicalSquatPose kfStanding).LEFT_HIP
    0.005 0.3 (by norm_num) (by norm_num)
    (by rw [lsx, lhx]; norm_num) (by rw [lsy, lhy]; norm_num)
  have hTR := torso_right (generateBiomechanicalSquatPose kfStanding).RIGHT_SHOULDER
    (generateBiomechanicalSquatPose kfStanding).RIGHT_HIP
    0.005 0.3 (by norm_num) (by norm_num)
    (by rw [rsx, rhx]; norm_num) (by rw [rsy, rhy]; norm_num)
  have hpi32 := Real.pi_gt_3141592
  have hSK1 : (165 : ℝ) < (arctan (0.25 / 0.015) + arctan (0.25 / 0.005)) * 180 / π := by
    apply S_gt (by norm_num) (by norm_num)
    norm_num
    linarith
  have hSK2 := S_lt (0.25 / 0.015 : ℝ) (0.25 / 0.005)
  have hSH1 : (165 : ℝ) < (arctan (0.25 / 0.005) + arctan (0.3 / 0.005)) * 180 / π := by
    apply S_gt (by norm_num) (by norm_num)
    norm_num
    linarith
  have hSH2 := S_lt (0.25 / 0.005 : ℝ) (0.3 / 0.005)
  have hTA1 : (89 : ℝ) < arctan (0.3 / 0.005) * 180 / π := by
    apply TA_gt (by norm_num)
    norm_num
    linarith
  have hTA2 := TA_lt (0.3 / 0.005 : ℝ)
  simp only [analyzeFormAgainstCoach, toUserPose, calculateKneeAngle, calculateHipAngle,
    calculateAngleDifference, getLm, Option.getD_some,
    show kfStanding.kneeAngle = 175 by norm_num [kfStanding],
    show kfStanding.hipAngle = 175 by norm_num [kfStanding],
    show kfStanding.torsoAngle = 5 by norm_num [kfStanding],
    show kfStanding.progress = 0 by norm_num [kfStanding]]
  rw [hKL, hKR, hHL, hHR, hTL, hTR]
  simp only [lhx, lhy, rhx, rhy, lkx, lky, rkx, rky, laxx, raxx]
  simp only [add_self_div_two]
  have hd1 : |(arctan (0.25 / 0.015) + arctan (0.25 / 0.005)) * 180 / π - 175| ≤ 10 :=
    abs_le.mpr ⟨by linarith, by linarith⟩
  have hd2 : |(arctan (0.25 / 0.005) + arctan (0.3 / 0.005)) * 180 / π - 175| ≤ 10 :=
    abs_le.mpr ⟨by linarith, by linarith⟩
  have hd3 : |90 - arctan (0.3 / 0.005) * 180 / π - 5| ≤ 15 :=
    abs_le.mpr ⟨by linarith, by linarith⟩
  rw [if_neg (not_lt.mpr (hd1.trans (by norm_num : (10 : ℝ) ≤ 20)))]
  rw [if_neg (not_lt.mpr hd1)]
  rw [if_neg (not_lt.mpr (hd2.trans (by norm_num : (10 : ℝ) ≤ 20)))]
  rw [if_neg (not_lt.mpr hd2)]
  rw [if_neg (show ¬ (60 : ℝ) < 90 - arctan (0.3 / 0.005) * 180 / π from
      not_lt.mpr (by linarith))]
  rw [if_neg (not_lt.mpr hd3)]
  rw [if_neg (show ¬ (((0 : ℝ) > 0.4 ∧ (0 : ℝ) < 0.6) ∧
      ¬ (0.35 : ℝ) < 0.6) by norm_num)]
  rw [show |(0.4 : ℝ) - 0.6| = 0.2 by rw [abs_of_neg (by norm_num)]; norm_num,
    show |(0.415 : ℝ) - 0.585| = 0.17 by rw [abs_of_neg (by norm_num)]; norm_num]
  rw [if_neg (show ¬ (0.2 : ℝ) < 0.17 * 0.8 by norm_num)]
  rw [if_neg (show ¬ ((0.4 : ℝ) > 0.415 + 0.05 ∨ (0.6 : ℝ) < 0.585 - 0.05) by
      rintro (h | h) <;> norm_num at h)]
  rw [show ((0.405 : ℝ) + 0.595) / 2 - (0.415 + 0.585) / 2 = 0 by norm_num]
  rw [abs_zero, if_pos (show (0 : ℝ) < 0.05 by norm_num)]
  rw [if_neg (show ¬ WeightDistribution.centered ≠ WeightDistribution.centered by simp)]
  rw [show (100 : ℝ) - 0 - 0 - 0 - 0 - 0 - 0 - 0 = 100 by norm_num]
  rw [min_self, max_eq_right (by norm_num : (0 : ℝ) ≤ 100)]
  rw [show (100 : ℝ) = ((100 : ℤ) : ℝ) by norm_num, round_intCast]

/-- Witness for the amended C7 at the Standing keyframe itself. -/
theorem C7_witness :
    (analyzeFormAgainstCoach (toUserPose (generateBiomechanicalSquatPose kfStanding))
        (generateBiomechanicalSquatPose kfStanding) kfStanding).overallScore = 100 ∧
    kfStanding ∈ SQUAT_KEYFRAMES :=
  C7_roundtrip_standing kfStanding rfl
end FormAI
